import Mathlib

/-!
Verification development for the document-classification orchestration engine
(`app/orchestrator.py` and `app/prompt_lib.py`).

The Python code is shallowly embedded:
* Python/JSON values are modelled by the inductive `Val` (floats as exact
  rationals, which agree with binary floats on every literal compared here);
* fallible Python code runs in `Py α := Except String α`, where the `String`
  is the exception text; `try/except` blocks become explicit `match`es;
* the external model clients (`call_llm`, `call_llm_with_images`,
  `run_secondary_reasoning`) are oracles supplied as parameters: an oracle
  maps the node id (nodes of a flow have unique ids, a configuration
  invariant) to either a reply value or a raised exception, which captures
  every observable collaborator behaviour;
* the request payloads built for those clients (prepared page text, prior
  outputs) flow only into the oracles and are therefore not reconstructed.
-/

namespace DocClass

/-- Python/JSON-like values as produced by the model clients and the flow
configuration.  Dictionary keys are strings, as in all JSON payloads the
orchestrator handles; floats are modelled as exact rationals. -/
inductive Val where
  | none : Val
  | bool (b : Bool) : Val
  | int (n : Int) : Val
  | float (q : ℚ) : Val
  | str (s : String) : Val
  | list (xs : List Val) : Val
  | dict (entries : List (String × Val)) : Val
deriving Repr

/-- Exception-carrying computations: `Except.error e` models a raised Python
exception with text `e`. -/
abbrev Py (α : Type) : Type := Except String α

/-- Whether a `Py` computation raised. -/
def raised {α : Type} : Py α → Bool
  | .error _ => true
  | .ok _ => false

/-- First-match association-list lookup, the model of Python `dict` access
(dictionaries built here always have pairwise distinct keys). -/
def dlookup (entries : List (String × Val)) (k : String) : Option Val :=
  match entries with
  | [] => Option.none
  | (k', v) :: rest => if k' = k then some v else dlookup rest k

/-- Python truthiness (`bool(v)`). -/
def pyTruthy : Val → Bool
  | .none => false
  | .bool b => b
  | .int n => n != 0
  | .float q => q != 0
  | .str s => s != ""
  | .list xs => !xs.isEmpty
  | .dict es => !es.isEmpty

/-- `a or b` on Python values: `a` when truthy, else `b`. -/
def pyOr (a b : Val) : Val := if pyTruthy a then a else b

/-- Numeric view used by Python `==`: bools, ints and floats compare by value
across constructors (`1 == 1.0 == True`). -/
def numQ : Val → Option ℚ
  | .bool b => some (if b then 1 else 0)
  | .int n => some (n : ℚ)
  | .float q => some q
  | _ => Option.none

mutual

/-- Python `==` on values: numeric cross-type equality, structural equality on
strings and lists, order-insensitive equality on dictionaries. -/
def pyEq : Val → Val → Bool
  | a, b =>
    match numQ a, numQ b with
    | some x, some y => x == y
    | _, _ =>
      match a, b with
      | .none, .none => true
      | .str s, .str t => s == t
      | .list xs, .list ys => pyEqList xs ys
      | .dict es, .dict fs => es.length == fs.length && pyEqEntries es fs
      | _, _ => false

/-- Pointwise equality of lists of values. -/
def pyEqList : List Val → List Val → Bool
  | [], [] => true
  | x :: xs, y :: ys => pyEq x y && pyEqList xs ys
  | _, _ => false

/-- Every binding of the first dictionary is matched in the second. -/
def pyEqEntries : List (String × Val) → List (String × Val) → Bool
  | [], _ => true
  | (k, v) :: rest, fs =>
    (match dlookup fs k with
     | some w => pyEq v w
     | Option.none => false) && pyEqEntries rest fs

end

/-- Numeric value of a digit run (integer part of a decimal literal). -/
def digitsVal (cs : List Char) : ℚ :=
  ((cs.foldl (fun acc c => acc * 10 + (c.toNat - 48)) 0 : Nat) : ℚ)

/-- Numeric value of a digit run read as a fraction (`.cs`). -/
def fracVal (cs : List Char) : ℚ :=
  cs.foldr (fun c acc => (acc + ((c.toNat - 48 : Nat) : ℚ)) / 10) 0

/-- Decimal forms accepted by Python `float(str)` restricted to plain
decimals: optional surrounding whitespace, optional sign, digits with an
optional fractional part (exponent and inf/nan forms are not modelled; no
property proved here depends on them). -/
def parseUnsignedDecimal (cs : List Char) : Option ℚ :=
  let ip := cs.takeWhile (fun c => c.isDigit)
  let rest := cs.dropWhile (fun c => c.isDigit)
  match rest with
  | [] => if ip.isEmpty then Option.none else some (digitsVal ip)
  | '.' :: rest2 =>
    let fp := rest2.takeWhile (fun c => c.isDigit)
    let rest3 := rest2.dropWhile (fun c => c.isDigit)
    if !rest3.isEmpty then Option.none
    else if ip.isEmpty && fp.isEmpty then Option.none
    else some (digitsVal ip + fracVal fp)
  | _ => Option.none

/-- `float(str)` on a trimmed decimal string, with optional sign. -/
def parseDecimal (s : String) : Option ℚ :=
  match (s.trim).toList with
  | '-' :: cs => (parseUnsignedDecimal cs).map (fun q => -q)
  | '+' :: cs => parseUnsignedDecimal cs
  | cs => parseUnsignedDecimal cs

/-- Python `float(v)`: numbers coerce, strings parse as decimals, everything
else raises `TypeError`. -/
def pyFloat : Val → Py ℚ
  | .bool b => .ok (if b then 1 else 0)
  | .int n => .ok (n : ℚ)
  | .float q => .ok q
  | .str s =>
    match parseDecimal s with
    | some q => .ok q
    | Option.none => .error ("ValueError: could not convert string to float: " ++ s)
  | .none => .error "TypeError: float() argument must be a string or a real number, not NoneType"
  | .list _ => .error "TypeError: float() argument must be a string or a real number, not list"
  | .dict _ => .error "TypeError: float() argument must be a string or a real number, not dict"

mutual

/-- Python `str(v)`.  Atoms are rendered exactly; floats and containers are
rendered in an approximate textual form (no verified property inspects the
rendering of a non-atomic value). -/
def pyStr : Val → String
  | .none => "None"
  | .bool b => if b then "True" else "False"
  | .int n => toString n
  | .float q => toString q
  | .str s => s
  | .list xs => "[" ++ pyStrList xs ++ "]"
  | .dict es => "\x7b" ++ pyStrEntries es ++ "\x7d"

/-- Comma-separated rendering of list items. -/
def pyStrList : List Val → String
  | [] => ""
  | [x] => pyStr x
  | x :: xs => pyStr x ++ ", " ++ pyStrList xs

/-- Comma-separated rendering of dictionary entries. -/
def pyStrEntries : List (String × Val) → String
  | [] => ""
  | [(k, v)] => k ++ ": " ++ pyStr v
  | (k, v) :: es => k ++ ": " ++ pyStr v ++ ", " ++ pyStrEntries es

end

/-- Hashability: lists and dictionaries are unhashable and raise `TypeError`
when used as lookup keys. -/
def pyHashable : Val → Bool
  | .list _ => false
  | .dict _ => false
  | _ => true

/-- Modelled from the spec: `app/models.py` is not under `src/`; per spec
section 3, a `Citation` carries an optional page, a snippet string, an
optional image index, an optional region and a source tag. -/
structure Citation where
  page : Option Int := Option.none
  snippet : String := ""
  image_index : Option Int := Option.none
  region : Option String := Option.none
  source : Option String := Option.none
deriving Repr, DecidableEq

/-- Modelled from the spec: `app/models.py` is not under `src/`; per spec
section 3, detector signals are the three boolean flags plus the two
hit-span lists (used directly as citations by the fallback path). -/
structure DetectorSignals where
  has_pii : Bool := false
  has_unsafe_pattern : Bool := false
  has_internal_markers : Bool := false
  pii_hits : List Citation := []
  unsafe_hits : List Citation := []
deriving Repr

/-- Result of `_fallback_decision` (the Python function returns the tuple
`(cat, tags, 0.7, citations, expl)`). -/
structure FallbackResult where
  cat : String
  tags : List String
  confidence : ℚ
  citations : List Citation
  expl : String
deriving Repr

/-- `_fallback_decision`: the deterministic severity ladder; the citation
source is `(signals.pii_hits or signals.unsafe_hits)[:3]`. -/
def fallback_decision (signals : DetectorSignals) : FallbackResult :=
  let base :=
    if signals.has_unsafe_pattern then
      ("Unsafe", ["Safety-Risk"], "Unsafe keywords detected.")
    else if signals.has_pii then
      ("Highly Sensitive", ["PII"], "PII patterns detected.")
    else if signals.has_internal_markers then
      ("Confidential", ["Internal"], "Internal markers detected.")
    else
      ("Public", [], "No sensitive markers found.")
  { cat := base.1
    tags := base.2.1
    confidence := 0.7
    citations := (if !signals.pii_hits.isEmpty then signals.pii_hits else signals.unsafe_hits).take 3
    expl := base.2.2 }

/-- The dedup key of `_dedupe_citations`:
`(page, image_index, trimmed region, source, first 120 chars of trimmed snippet)`. -/
def citeKey (c : Citation) : Option Int × Option Int × String × String × String :=
  (c.page, c.image_index, (c.region.getD "").trim, c.source.getD "", (c.snippet.trim).take 120)

/-- Loop of `_dedupe_citations`: keep a citation when its key is unseen. -/
def dedupe_citations_go (seen : List (Option Int × Option Int × String × String × String)) :
    List Citation → List Citation
  | [] => []
  | c :: rest =>
    if citeKey c ∈ seen then dedupe_citations_go seen rest
    else c :: dedupe_citations_go (citeKey c :: seen) rest

/-- `_dedupe_citations`: first occurrence of each dedup key wins, relative
order preserved. -/
def dedupe_citations (citations : List Citation) : List Citation :=
  dedupe_citations_go [] citations

/-- One `stop_if` rule of a flow node: `path`/`field` select the dotted
lookup path, and `equals := some v` records that the `equals` key is present
with value `v` (absent key ⇒ truthiness semantics). -/
structure StopRule where
  path : Option String := Option.none
  field : Option String := Option.none
  equals : Option Val := Option.none
deriving Repr

/-- One node of the prompt flow, mirroring the configuration keys read by
`classify_document` and its helpers (`conditions` is flattened into the three
`cond_*` fields). -/
structure FlowNode where
  id : String
  prompt : String := ""
  runner : Option String := Option.none
  cond_has_images : Bool := false
  cond_signals_true : List String := []
  cond_signals_false : List String := []
  depends_on : List String := []
  use_summary_pages : Bool := false
  collect_summary : Bool := false
  stop_on_error : Bool := true
  stop_if : List StopRule := []
  final_node : Bool := false
deriving Repr

/-- `getattr(signals, attr, False)` followed by truthiness: the hit lists are
truthy when non-empty, unknown attributes default to `False`. -/
def signal_attr (s : DetectorSignals) (name : String) : Bool :=
  if name = "has_pii" then s.has_pii
  else if name = "has_unsafe_pattern" then s.has_unsafe_pattern
  else if name = "has_internal_markers" then s.has_internal_markers
  else if name = "pii_hits" then !s.pii_hits.isEmpty
  else if name = "unsafe_hits" then !s.unsafe_hits.isEmpty
  else false

/-- `_should_run_node`. -/
def should_run_node (node : FlowNode) (signals : DetectorSignals) (images_data : List Val) : Bool :=
  if node.cond_has_images && images_data.isEmpty then false
  else if !(node.cond_signals_true.all (signal_attr signals)) then false
  else if node.cond_signals_false.any (signal_attr signals) then false
  else true

/-- `_dependencies_ready`: presence of the dependency key in the output map. -/
def dependencies_ready (node : FlowNode) (outputs : List (String × Val)) : Bool :=
  node.depends_on.all (fun dep => (dlookup outputs dep).isSome)

/-- `_output_has_error`: a dict whose `mock` entry is truthy. -/
def output_has_error : Val → Bool
  | .dict es => pyTruthy ((dlookup es "mock").getD .none)
  | _ => false

/-- Digit-run value as a natural number. -/
def digitsNat (cs : List Char) : Nat :=
  cs.foldl (fun acc c => acc * 10 + (c.toNat - 48)) 0

/-- Python `int(str)` restricted to optionally signed decimal digit runs
(surrounding whitespace tolerated). -/
def parseIntStr (s : String) : Option Int :=
  match (s.trim).toList with
  | '-' :: cs =>
    if !cs.isEmpty && cs.all (fun c => c.isDigit) then some (-(digitsNat cs : Int)) else Option.none
  | '+' :: cs =>
    if !cs.isEmpty && cs.all (fun c => c.isDigit) then some ((digitsNat cs : Int)) else Option.none
  | cs =>
    if !cs.isEmpty && cs.all (fun c => c.isDigit) then some ((digitsNat cs : Int)) else Option.none

/-- Dotted-path walk of `_extract_path_value`: dict lookup with `None`
default, integer indexing into lists failing closed on parse error or
out-of-range index, `None` on any other type. -/
def extract_go (parts : List String) (current : Val) : Val :=
  match parts with
  | [] => current
  | part :: rest =>
    match current with
    | .dict es => extract_go rest ((dlookup es part).getD .none)
    | .list xs =>
      match parseIntStr part with
      | some i =>
        if i < 0 || (xs.length : Int) ≤ i then .none
        else extract_go rest (xs.getD i.toNat .none)
      | Option.none => .none
    | _ => .none

/-- `_extract_path_value`. -/
def extract_path_value (payload : Val) (path : String) : Val :=
  match payload with
  | .none => .none
  | _ => extract_go (path.splitOn ".") payload

/-- One `stop_if` rule fires: select the path (empty/absent selectors skip
the rule), extract, then compare with `equals` when present, otherwise test
truthiness. -/
def stop_rule_fires (output : Val) (cond : StopRule) : Bool :=
  let p := cond.path.getD ""
  let f := if p ≠ "" then p else cond.field.getD ""
  if f = "" then false
  else
    let value := extract_path_value output f
    match cond.equals with
    | some eq => pyEq value eq
    | Option.none => pyTruthy value

/-- `_stop_conditions_met`: first firing rule wins. -/
def stop_conditions_met (node : FlowNode) (output : Val) : Bool :=
  node.stop_if.any (stop_rule_fires output)

/-- Update of a Python dict keyed by arbitrary values (`==` semantics),
keeping the original key object on overwrite. -/
def assocSetEq (sp : List (Val × Val)) (k v : Val) : List (Val × Val) :=
  match sp with
  | [] => [(k, v)]
  | (k', v') :: rest =>
    if pyEq k' k then (k', v) :: rest else (k', v') :: assocSetEq rest k v

/-- `_update_summary_pages`: merge `{page, summary}` entries of a list output
(both truthy) into the running summary map. -/
def update_summary_pages (output : Val) (sp : List (Val × Val)) : List (Val × Val) :=
  match output with
  | .list entries =>
    entries.foldl
      (fun acc entry =>
        match entry with
        | .dict es =>
          let page := (dlookup es "page").getD .none
          let summary := (dlookup es "summary").getD .none
          if pyTruthy page && pyTruthy summary then assocSetEq acc page summary else acc
        | _ => acc)
      sp
  | _ => sp

/-- String-keyed dict update, keeping insertion position on overwrite. -/
def assocSet (m : List (String × Val)) (k : String) (v : Val) : List (String × Val) :=
  match m with
  | [] => [(k, v)]
  | (k', v') :: rest =>
    if k' = k then (k', v) :: rest else (k', v') :: assocSet rest k v

/-- Python `iter(v)`: lists yield items, strings yield characters,
dicts yield keys; everything else raises `TypeError`. -/
def pyIterate : Val → Py (List Val)
  | .list xs => .ok xs
  | .str s => .ok (s.toList.map (fun c => Val.str c.toString))
  | .dict es => .ok (es.map (fun e => Val.str e.1))
  | _ => .error "TypeError: object is not iterable"

/-- Modelled from the spec: coercion performed by the absent `app/models.py`
when a raw value is stored into `Citation.page`/`image_index` (spec section 3
types them optional int); non-conforming values are rejected. -/
def coercePage : Val → Py (Option Int)
  | .none => .ok Option.none
  | .int n => .ok (some n)
  | _ => .error "ValidationError: int field"

/-- Modelled from the spec: coercion into `Citation.snippet` (a string). -/
def coerceSnippet : Val → Py String
  | .str s => .ok s
  | _ => .error "ValidationError: snippet"

/-- Citation-collection loop: later items after a raised extraction error are
dropped but the citations gathered before it are kept (the `except` block of
`_collect_citations` falls through to `return citations`). -/
def collect_loop (f : Val → Py (Option Citation)) : List Val → List Citation
  | [] => []
  | v :: rest =>
    match f v with
    | .error _ => []
    | .ok Option.none => collect_loop f rest
    | .ok (some c) => c :: collect_loop f rest

/-- Per-span extraction shared by `pii_scan`, `unsafe_scan` and
`confidentiality_scan` (they differ only in the snippet key). -/
def span_item (textKey node_id : String) (span : Val) : Py (Option Citation) :=
  match span with
  | .dict es =>
    let page := (dlookup es "page").getD .none
    let text := (dlookup es textKey).getD .none
    if pyTruthy text then do
      let p ← coercePage page
      let s ← coerceSnippet text
      .ok (some { page := p, snippet := s, source := some node_id })
    else .ok Option.none
  | _ => .ok Option.none

/-- Per-citation extraction of the `final_decision` branch. -/
def final_item (node_id : String) (cite : Val) : Py (Option Citation) :=
  match cite with
  | .dict es =>
    let snippet := (dlookup es "snippet").getD .none
    if pyTruthy snippet then do
      let p ← coercePage ((dlookup es "page").getD .none)
      let s ← coerceSnippet snippet
      let idx ← coercePage ((dlookup es "image_index").getD .none)
      let r ←
        match (dlookup es "region").getD .none with
        | .none => Except.ok Option.none
        | .str t => Except.ok (some t)
        | _ => Except.error "ValidationError: region"
      .ok (some { page := p, snippet := s, image_index := idx, region := r, source := some node_id })
    else .ok Option.none
  | _ => .ok Option.none

/-- `", ".join(regions)`: every joined item must be a string. -/
def joinRegions (v : Val) : Py String := do
  let items ← pyIterate v
  let strs ← items.mapM
    (fun it =>
      match it with
      | Val.str s => Except.ok s
      | _ => Except.error "TypeError: sequence item: expected str instance")
  .ok (String.intercalate ", " strs)

/-- Per-finding extraction of the `image_analysis` branch. -/
def image_item (finding : Val) : Py (Option Citation) :=
  match finding with
  | .dict es =>
    let description := (dlookup es "description").getD .none
    if pyTruthy description then do
      let regions := pyOr ((dlookup es "regions_of_concern").getD .none) (.list [])
      let region_text ←
        if pyTruthy regions then (joinRegions regions).map some else Except.ok Option.none
      let p ← coercePage ((dlookup es "page").getD .none)
      let s ← coerceSnippet description
      let idx ← coercePage ((dlookup es "image_index").getD .none)
      .ok (some { page := p, snippet := s, image_index := idx, region := region_text,
                  source := some "image_analysis" })
    else .ok Option.none
  | _ => .ok Option.none

/-- Items of `output.get(key, [])`, raising `AttributeError` on a non-dict
output (the raise is swallowed by the branch dispatcher). -/
def citeItemsOf (output : Val) (k : String) : Py (List Val) :=
  match output with
  | .dict es => pyIterate ((dlookup es k).getD (.list []))
  | _ => .error "AttributeError: get"

/-- `_collect_citations`: dispatch by node id; any extraction-time exception
leaves the citations gathered so far. -/
def collect_citations (node_id : String) (output : Val) : List Citation :=
  match output with
  | .none => []
  | _ =>
    if output_has_error output then []
    else
      let run := fun (k : String) (f : Val → Py (Option Citation)) =>
        match citeItemsOf output k with
        | .error _ => ([] : List Citation)
        | .ok items => collect_loop f items
      if node_id = "pii_scan" then run "pii_spans" (span_item "text" node_id)
      else if node_id = "unsafe_scan" then run "citations" (span_item "text" node_id)
      else if node_id = "confidentiality_scan" then run "citations" (span_item "snippet" node_id)
      else if node_id = "final_decision" then run "citations" (final_item node_id)
      else if node_id = "image_analysis" then run "findings" image_item
      else []

/-- The structured failure marker `{mock: true, error, prompt_node}`. -/
def mock_marker (err tag : String) : Val :=
  .dict [("mock", .bool true), ("error", .str err), ("prompt_node", .str tag)]

/-- Execution of one node's client call (lines 66-88 of the orchestrator,
minus the multimodal `continue`, which the engine handles): a client
exception becomes a marker — tagged with the prompt name for standard nodes
(the handler inside `_run_prompt`) and with the node id for multimodal nodes
(the outer handler); a missing prompt raises `KeyError` before the call and
is caught by the outer handler. -/
def execute_node (promptNames : List String) (oracle : String → Py Val) (node : FlowNode) : Val :=
  if node.prompt ∈ promptNames then
    match oracle node.id with
    | .ok v => v
    | .error e =>
      if node.runner = some "multimodal" then mock_marker e node.id
      else mock_marker e node.prompt
  else mock_marker ("KeyError: " ++ node.prompt) node.id

/-- `final_node_id = final_node_id or node_id` (Python `or` on the id
string: an empty current id counts as unset). -/
def idOr (cur : Option String) (nid : String) : Option String :=
  match cur with
  | some s => if s ≠ "" then some s else some nid
  | Option.none => some nid

/-- Mutable state of the node loop in `classify_document`. -/
structure FlowState where
  prompt_errors : List String := []
  summary_pages : List (Val × Val) := []
  flow_outputs : List (String × Val) := []
  audit_citations : List Citation := []
  final_node_id : Option String := Option.none
deriving Repr

/-- The node loop of `classify_document` (lines 58-109): run conditions,
dependency gating, execution with failure isolation, citation harvest or
error recording, summary collection, stop rules, `final_node`. -/
def run_flow_engine (promptNames : List String) (oracle : String → Py Val)
    (signals : DetectorSignals) (images_data : List Val) :
    List FlowNode → FlowState → FlowState
  | [], st => st
  | node :: rest, st =>
    if !should_run_node node signals images_data then
      run_flow_engine promptNames oracle signals images_data rest st
    else if !dependencies_ready node st.flow_outputs then
      run_flow_engine promptNames oracle signals images_data rest st
    else if node.runner = some "multimodal" && images_data.isEmpty then
      run_flow_engine promptNames oracle signals images_data rest st
    else
      let output := execute_node promptNames oracle node
      let st1 := { st with flow_outputs := assocSet st.flow_outputs node.id output }
      let errored := output_has_error output
      let st2 :=
        if !errored then
          { st1 with audit_citations := st1.audit_citations ++ collect_citations node.id output }
        else
          { st1 with prompt_errors := st1.prompt_errors ++ [node.id] }
      if errored && node.stop_on_error then
        { st2 with final_node_id := idOr st2.final_node_id node.id }
      else
        let st3 :=
          if node.collect_summary then
            { st2 with summary_pages := update_summary_pages output st2.summary_pages }
          else st2
        if stop_conditions_met node output then
          { st3 with final_node_id := idOr st3.final_node_id node.id }
        else if node.final_node then
          { st3 with final_node_id := some node.id }
        else
          run_flow_engine promptNames oracle signals images_data rest st3

/-- JSON whitespace skipping. -/
def skipWs (cs : List Char) : List Char :=
  cs.dropWhile (fun c => c = ' ' || c = '\n' || c = '\t' || c = '\r')

/-- JSON string escapes (the common single-character ones; unsupported
escapes make the parse fail, which the orchestrator treats like any other
parse failure). -/
def jsonEsc (c : Char) : Option Char :=
  if c = '"' then some '"'
  else if c = '\\' then some '\\'
  else if c = '/' then some '/'
  else if c = 'n' then some '\n'
  else if c = 't' then some '\t'
  else if c = 'r' then some '\r'
  else Option.none

/-- Body of a JSON string after the opening quote. -/
def jsonStrGo (acc : List Char) : List Char → Option (String × List Char)
  | [] => Option.none
  | '"' :: rest => some (String.mk acc.reverse, rest)
  | '\\' :: [] => Option.none
  | '\\' :: e :: rest2 =>
    match jsonEsc e with
    | some ch => jsonStrGo (ch :: acc) rest2
    | Option.none => Option.none
  | c :: rest => jsonStrGo (c :: acc) rest

/-- Negation of a parsed JSON number. -/
def negVal : Val → Val
  | .int n => .int (-n)
  | .float q => .float (-q)
  | v => v

/-- Unsigned JSON number: digits with an optional fractional part (an
integer literal yields `int`, a fractional one `float`). -/
def jsonNumCore (cs : List Char) : Option (Val × List Char) :=
  let ip := cs.takeWhile (fun c => c.isDigit)
  let rest := cs.dropWhile (fun c => c.isDigit)
  if ip.isEmpty then Option.none
  else
    match rest with
    | '.' :: rest2 =>
      let fp := rest2.takeWhile (fun c => c.isDigit)
      let rest3 := rest2.dropWhile (fun c => c.isDigit)
      if fp.isEmpty then Option.none
      else some (.float (digitsVal ip + fracVal fp), rest3)
    | _ => some (.int (digitsNat ip : Int), rest)

/-- Signed JSON number. -/
def jsonNum (cs : List Char) : Option (Val × List Char) :=
  match cs with
  | '-' :: cs2 => (jsonNumCore cs2).map (fun p => (negVal p.1, p.2))
  | _ => jsonNumCore cs

mutual

/-- Recursive-descent JSON value parser (fuel-bounded; `pyJsonLoads` supplies
ample fuel).  Exponents and unicode escapes are outside the modelled subset:
a reply using them parses as a failure, which the orchestrator routes to the
fallback exactly like any malformed reply. -/
def jsonVal : Nat → List Char → Option (Val × List Char)
  | 0, _ => Option.none
  | Nat.succ fuel, cs =>
    match skipWs cs with
    | [] => Option.none
    | c :: rest =>
      if c = '"' then (jsonStrGo [] rest).map (fun p => (Val.str p.1, p.2))
      else if c = '[' then (jsonArrayItems fuel rest).map (fun p => (Val.list p.1, p.2))
      else if c = Char.ofNat 123 then (jsonObjEntries fuel rest).map (fun p => (Val.dict p.1, p.2))
      else if c = 'n' then
        match rest with
        | 'u' :: 'l' :: 'l' :: r => some (Val.none, r)
        | _ => Option.none
      else if c = 't' then
        match rest with
        | 'r' :: 'u' :: 'e' :: r => some (Val.bool true, r)
        | _ => Option.none
      else if c = 'f' then
        match rest with
        | 'a' :: 'l' :: 's' :: 'e' :: r => some (Val.bool false, r)
        | _ => Option.none
      else jsonNum (c :: rest)

/-- JSON array items after the opening bracket. -/
def jsonArrayItems : Nat → List Char → Option (List Val × List Char)
  | 0, _ => Option.none
  | Nat.succ fuel, cs =>
    match skipWs cs with
    | ']' :: rest => some ([], rest)
    | cs2 =>
      match jsonVal fuel cs2 with
      | Option.none => Option.none
      | some (v, r) =>
        match skipWs r with
        | ',' :: r2 => (jsonArrayItems fuel r2).map (fun p => (v :: p.1, p.2))
        | ']' :: r2 => some ([v], r2)
        | _ => Option.none

/-- JSON object entries after the opening brace. -/
def jsonObjEntries : Nat → List Char → Option (List (String × Val) × List Char)
  | 0, _ => Option.none
  | Nat.succ fuel, cs =>
    match skipWs cs with
    | [] => Option.none
    | c :: rest =>
      if c = Char.ofNat 125 then some ([], rest)
      else if c = '"' then
        match jsonStrGo [] rest with
        | Option.none => Option.none
        | some (k, r) =>
          match skipWs r with
          | ':' :: r2 =>
            match jsonVal fuel r2 with
            | Option.none => Option.none
            | some (v, r3) =>
              match skipWs r3 with
              | ',' :: r4 => (jsonObjEntries fuel r4).map (fun p => ((k, v) :: p.1, p.2))
              | d :: r4 => if d = Char.ofNat 125 then some ([(k, v)], r4) else Option.none
              | [] => Option.none
          | _ => Option.none
      else Option.none

end

/-- `json.loads`: parses a string, raises `TypeError` on anything else (the
orchestrator only reaches it for non-dict terminal outputs). -/
def pyJsonLoads (v : Val) : Py Val :=
  match v with
  | .str s =>
    match jsonVal (s.length * 2 + 8) s.toList with
    | some (val, rest) =>
      if (skipWs rest).isEmpty then .ok val else .error "json.JSONDecodeError: Extra data"
    | Option.none => .error "json.JSONDecodeError: Expecting value"
  | _ => .error "TypeError: the JSON object must be str, bytes or bytearray"

/-- `v[k]`: `KeyError` on a missing key, `TypeError` on a non-dict. -/
def pyGetItem : Val → String → Py Val
  | .dict es, k =>
    match dlookup es k with
    | some v => .ok v
    | Option.none => .error ("KeyError: " ++ k)
  | _, _ => .error "TypeError: object is not subscriptable"

/-- `v.get(k, d)`: `AttributeError` on a non-dict. -/
def pyGetAttrD : Val → String → Val → Py Val
  | .dict es, k, d => .ok ((dlookup es k).getD d)
  | _, _, _ => .error "AttributeError: get"

/-- The normalized primary decision (`prompt_tree_result` in the code). -/
structure TreeResult where
  final_category : Val
  secondary_tags : Val
  confidence : ℚ
  citations : List Citation
  explanation : Val
  source : String
deriving Repr

/-- The fallback branch of the result builder (lines 121-133 and 168-181):
fallback ladder, audit-merge of the fallback citations, deduplication. -/
def fallback_tree (signals : DetectorSignals) (audit_citations : List Citation) : TreeResult :=
  let fb := fallback_decision signals
  let audit2 := if !fb.citations.isEmpty then audit_citations ++ fb.citations else audit_citations
  let citations := if !audit2.isEmpty then dedupe_citations audit2 else fb.citations
  { final_category := .str fb.cat
    secondary_tags := .list (fb.tags.map Val.str)
    confidence := fb.confidence
    citations := citations
    explanation := .str fb.expl
    source := "fallback" }

/-- The `final_decision` citation comprehension of lines 140-150: unlike
`_collect_citations`, a raise here aborts the whole parse (routing to the
fallback), so errors propagate. -/
def comprehend_fd : List Val → Py (List Citation)
  | [] => .ok []
  | c :: rest => do
    let oc ← final_item "final_decision" c
    let tail ← comprehend_fd rest
    match oc with
    | some cit => .ok (cit :: tail)
    | Option.none => .ok tail

/-- The `try` block of lines 135-167: parse the terminal output (dict as-is,
otherwise `json.loads`), require `final_category`, default the other fields,
convert well-snippeted citation dicts, merge with the audit list and
deduplicate.  Any raise is the caller's cue to fall back. -/
def parse_prompt_tree (final_out : Val) (audit_citations : List Citation) : Py TreeResult := do
  let data ←
    match final_out with
    | .dict _ => Except.ok final_out
    | _ => pyJsonLoads final_out
  let final_category ← pyGetItem data "final_category"
  let secondary_tags ← pyGetAttrD data "secondary_tags" (.list [])
  let confidence ← pyFloat (← pyGetAttrD data "confidence" (.float 0.7))
  let citesRaw ← pyGetAttrD data "citations" (.list [])
  let items ← pyIterate citesRaw
  let final_decision_citations ← comprehend_fd items
  let audit2 :=
    if !final_decision_citations.isEmpty then audit_citations ++ final_decision_citations
    else audit_citations
  let citations := if !audit2.isEmpty then dedupe_citations audit2 else final_decision_citations
  let explanation ← pyGetAttrD data "explanation" (.str "")
  .ok { final_category := final_category
        secondary_tags := secondary_tags
        confidence := confidence
        citations := citations
        explanation := explanation
        source := "prompt_tree" }

/-- Reverse scan of lines 112-116: last declared node whose (truthy) id is
present in the output map. -/
def reverse_scan (flow : List FlowNode) (outputs : List (String × Val)) : Option String :=
  ((flow.reverse).find? (fun n => n.id ≠ "" && (dlookup outputs n.id).isSome)).map (fun n => n.id)

/-- Terminal-node resolution: the loop's choice, else the reverse scan
(line 111 tests `is None` exactly). -/
def terminal_node_id (flow : List FlowNode) (st : FlowState) : Option String :=
  match st.final_node_id with
  | some s => some s
  | Option.none => reverse_scan flow st.flow_outputs

/-- `final_out` of line 118 (`if final_node_id` is a truthiness test). -/
def final_out_of (flow : List FlowNode) (st : FlowState) : Val :=
  match terminal_node_id flow st with
  | some fid => if fid ≠ "" then (dlookup st.flow_outputs fid).getD .none else .none
  | Option.none => .none

/-- The result-builder stage (lines 118-181): fallback when the terminal
output is absent, falsy or a failure marker, or when parsing it raises. -/
def tree_of_state (signals : DetectorSignals) (flow : List FlowNode) (st : FlowState) : TreeResult :=
  let final_out := final_out_of flow st
  if !pyTruthy final_out || output_has_error final_out then fallback_tree signals st.audit_citations
  else
    match parse_prompt_tree final_out st.audit_citations with
    | .ok tree => tree
    | .error _ => fallback_tree signals st.audit_citations

/-- The normalized primary analysis of `_build_primary_analysis`. -/
structure PrimaryAnalysis where
  engine : String
  model : String
  category : Val
  secondary_tags : Val
  confidence : ℚ
  explanation : Val
  citations : List Citation
deriving Repr

/-- `_build_primary_analysis`. -/
def build_primary_analysis (tree_result : TreeResult) (model_name : String) : PrimaryAnalysis :=
  { engine := tree_result.source
    model := model_name
    category := tree_result.final_category
    secondary_tags := tree_result.secondary_tags
    confidence := tree_result.confidence
    explanation := tree_result.explanation
    citations := tree_result.citations }

/-- The normalized secondary analysis built by `_structure_secondary_analysis`. -/
structure SecondaryAnalysis where
  raw : Val
  model : Val
  label : Val
  confidence : ℚ
  explanation : Val
  content_safety : Val
  critical_info : Val
  needs_review : Bool
  citations : Val
  error : Val
deriving Repr

/-- `_structure_secondary_analysis`.  The only fallible step is the `float`
coercion of the confidence field on the non-error path; it is NOT guarded by
any handler in `classify_document`. -/
def structure_secondary_analysis (raw : Val) : Py SecondaryAnalysis := do
  let base0 := if pyTruthy raw then raw else Val.dict []
  let base_raw :=
    match base0 with
    | .dict _ => base0
    | v => Val.dict [("raw_value", v)]
  let es :=
    match base_raw with
    | .dict entries => entries
    | _ => []
  let g := fun (k : String) => (dlookup es k).getD .none
  let modelv := pyOr (g "model") (.str "gpt-4o-mini")
  if !pyTruthy base_raw || pyTruthy (g "error") then
    .ok { raw := base_raw
          model := modelv
          label := .none
          confidence := 0.0
          explanation := pyOr (g "error") (.str "Secondary LLM unavailable")
          content_safety := .none
          critical_info := .list []
          needs_review := true
          citations := .list []
          error := pyOr (g "error") (.str "secondary_llm_error") }
  else
    let label := pyOr (g "label") (g "Sensitivity")
    let confidence ← pyFloat
      (match dlookup es "confidence" with
       | some v => v
       | Option.none => (dlookup es "Confidence").getD (.float 0.7))
    let explanation := pyOr (pyOr (g "rationale") (g "Reasoning")) (.str "")
    let content_safety := pyOr (g "content_safety") (g "Content_safety")
    let critical_info0 := pyOr (pyOr (g "critical_info") (g "Critical_info")) (.list [])
    let critical_info :=
      match critical_info0 with
      | .list _ => critical_info0
      | v => .list [.str (pyStr v)]
    let citations0 := pyOr (pyOr (g "citations") (g "Citations")) (.list [])
    let citations :=
      match citations0 with
      | .list _ => citations0
      | _ => .list []
    let needs_review :=
      pyTruthy (g "needs_review") || pyTruthy (g "Requires_review") || decide (confidence < 0.8)
    .ok { raw := base_raw
          model := modelv
          label := label
          confidence := confidence
          explanation := explanation
          content_safety := content_safety
          critical_info := critical_info
          needs_review := needs_review
          citations := citations
          error := .none }

/-- `"%.2f"` of a nonnegative gap (Python's formatting of the nearest float;
rounding half up approximates the float's round-half-even — no verified
property inspects the digits). -/
def format2 (q : ℚ) : String :=
  let n : Nat := (Int.floor (q * 100 + 1 / 2)).toNat
  let frac := n % 100
  toString (n / 100) ++ "." ++ (if frac < 10 then "0" ++ toString frac else toString frac)

/-- Python `abs()` on a rational, written executably so that kernel
reduction can evaluate it. -/
def absQ (q : ℚ) : ℚ := if q < 0 then -q else q

/-- `_compute_llm_agreement`: `(agreement_score, disagreements)`.  A zero
confidence on either side is replaced by 0.7 (the `or 0.7` defaults). -/
def compute_llm_agreement (primary_analysis : PrimaryAnalysis)
    (secondary_analysis : SecondaryAnalysis) : ℚ × List String :=
  if pyTruthy secondary_analysis.error then (0.0, ["secondary_llm_error"])
  else
    let pt_cat := primary_analysis.category
    let sec_cat := secondary_analysis.label
    let catMatch := pyTruthy pt_cat && pyTruthy sec_cat && pyEq pt_cat sec_cat
    let c1 : ℚ := if catMatch then 1.0 else 0.0
    let dis1 : List String :=
      if catMatch then []
      else ["category: primary=" ++ pyStr pt_cat ++ ", secondary=" ++ pyStr sec_cat]
    let pt_conf : ℚ := if primary_analysis.confidence = 0 then 0.7 else primary_analysis.confidence
    let sec_conf : ℚ :=
      if secondary_analysis.confidence = 0 then 0.7 else secondary_analysis.confidence
    let gap := absQ (pt_conf - sec_conf)
    let c2 : ℚ := if gap < 0.2 then 1.0 else 0.5
    let dis2 : List String := if gap < 0.2 then [] else ["confidence_gap: " ++ format2 gap]
    ((c1 + c2) / 2, dis1 ++ dis2)

/-- The severity table of `_resolve_category_conflict`
(`priority.get(cat, 0)` for string keys). -/
def priorityTable (s : String) : Int :=
  if s = "Unsafe" then 4
  else if s = "Highly Sensitive" then 3
  else if s = "Confidential" then 2
  else if s = "Public" then 1
  else 0

/-- `priority.get(cat, 0)` on an arbitrary value: unhashable keys raise. -/
def categoryPriorityGet (v : Val) : Py Int :=
  if !pyHashable v then .error "TypeError: unhashable type"
  else
    .ok (match v with
         | .str s => priorityTable s
         | _ => 0)

/-- `_resolve_category_conflict` (both `priority.get` calls are evaluated
before the comparison, so an unhashable first key raises first). -/
def resolve_category_conflict (cat1 cat2 : Val) : Py Val :=
  if !pyTruthy cat1 then .ok cat2
  else if !pyTruthy cat2 then .ok cat1
  else
    match categoryPriorityGet cat1 with
    | .error e => .error e
    | .ok p1 =>
      match categoryPriorityGet cat2 with
      | .error e => .error e
      | .ok p2 => .ok (if p2 ≤ p1 then cat1 else cat2)

/-- `_collect_review_triggers`: the five triggers in fixed order. -/
def collect_review_triggers (final_confidence : ℚ) (signals : DetectorSignals)
    (prompt_errors : List String) (agreement_score : ℚ) (disagreements : List String)
    (secondary_analysis : SecondaryAnalysis) : List String :=
  (if final_confidence < 0.8 then ["low_confidence"] else []) ++
  (if signals.has_unsafe_pattern then ["unsafe_detector"] else []) ++
  (if !prompt_errors.isEmpty then ["prompt_errors"] else []) ++
  (if agreement_score < 0.7 || !disagreements.isEmpty then ["llm_disagreement"] else []) ++
  (if secondary_analysis.needs_review then ["secondary_llm_flag"] else [])

/-- `summary.decision`. -/
structure DecisionBlock where
  category : Val
  confidence : ℚ
  secondary_tags : Val
deriving Repr

/-- `summary.review`. -/
structure ReviewBlock where
  required : Bool
  triggers : List String
deriving Repr

/-- `summary.agreement`. -/
structure AgreementBlock where
  score : ℚ
  disagreements : List String
deriving Repr

/-- The summary block of `_build_summary_block`. -/
structure SummaryBlock where
  decision : DecisionBlock
  review : ReviewBlock
  agreement : AgreementBlock
  content_safety : Val
  legibility : Option ℚ
deriving Repr

/-- `_build_summary_block`. -/
def build_summary_block (final_category : Val) (final_confidence : ℚ) (secondary_tags : Val)
    (requires_review : Bool) (review_triggers : List String) (agreement_score : ℚ)
    (disagreements : List String) (content_safety : Val) (legibility_score : Option ℚ) :
    SummaryBlock :=
  { decision := { category := final_category, confidence := final_confidence,
                  secondary_tags := secondary_tags }
    review := { required := requires_review, triggers := review_triggers }
    agreement := { score := agreement_score, disagreements := disagreements }
    content_safety := content_safety
    legibility := legibility_score }

/-- `llm_payload.dual_llm_validation`. -/
structure DualLlmValidation where
  agreement_score : ℚ
  disagreements : List String
  resolution_strategy : String
  secondary_model : Val
deriving Repr

/-- The `llm_payload` block. -/
structure LlmPayload where
  prompt_errors : List String
  prompt_flow : List (String × Val)
  primary_raw : TreeResult
  secondary_llm : Val
  dual_llm_validation : DualLlmValidation
deriving Repr

/-- Modelled from the spec: `app/models.py` is not under `src/`; the result
record per spec section 3 (the two analysis views keep their `None`-valued
fields, a serialization detail the spec does not observe). -/
structure ClassificationResult where
  doc_id : String
  final_category : Val
  secondary_tags : Val
  confidence : ℚ
  explanation : Val
  page_count : Nat
  image_count : Int
  content_safety : Val
  citations : List Citation
  raw_signals : DetectorSignals
  llm_payload : LlmPayload
  requires_review : Bool
  dual_llm_agreement : ℚ
  dual_llm_disagreements : Option (List String)
  primary_analysis : PrimaryAnalysis
  secondary_analysis : SecondaryAnalysis
  summary : SummaryBlock
  legibility_score : Option ℚ
deriving Repr

/-- Lines 188-192: a raised secondary-reasoning call is converted into an
error-keyed raw map. -/
def secondary_raw_of (oracleSecondary : Py Val) : Val :=
  match oracleSecondary with
  | .ok v => v
  | .error e => .dict [("error", .str e)]

/-- Lines 207-280: the pure assembly of the final result once the secondary
analysis and the resolved category are available. -/
def assemble_result (doc_id : String) (pages : List (Int × String)) (signals : DetectorSignals)
    (image_count : Int) (legibility_score : Option ℚ) (st : FlowState) (tree : TreeResult)
    (primary : PrimaryAnalysis) (secondary : SecondaryAnalysis) (agreement_score : ℚ)
    (disagreements : List String) (secondary_label final_category_to_use : Val) :
    ClassificationResult :=
  let matched := pyEq final_category_to_use secondary_label && !pyTruthy secondary.error
  let final_confidence := if matched then secondary.confidence else tree.confidence
  let final_explanation := if matched then secondary.explanation else tree.explanation
  let final_tags :=
    if matched then pyOr secondary.critical_info tree.secondary_tags else tree.secondary_tags
  let content_safety := pyOr secondary.content_safety (.str "Content is safe for kids")
  let review_triggers :=
    collect_review_triggers final_confidence signals st.prompt_errors agreement_score
      disagreements secondary
  let requires_review := !review_triggers.isEmpty
  let summary :=
    build_summary_block final_category_to_use final_confidence final_tags requires_review
      review_triggers agreement_score disagreements content_safety legibility_score
  { doc_id := doc_id
    final_category := final_category_to_use
    secondary_tags := final_tags
    confidence := final_confidence
    explanation := final_explanation
    page_count := pages.length
    image_count := image_count
    content_safety := content_safety
    citations := tree.citations
    raw_signals := signals
    llm_payload :=
      { prompt_errors := st.prompt_errors
        prompt_flow := st.flow_outputs
        primary_raw := tree
        secondary_llm := secondary.raw
        dual_llm_validation :=
          { agreement_score := agreement_score
            disagreements := disagreements
            resolution_strategy := "most_restrictive"
            secondary_model := secondary.model } }
    requires_review := requires_review
    dual_llm_agreement := agreement_score
    dual_llm_disagreements := if !disagreements.isEmpty then some disagreements else Option.none
    primary_analysis := primary
    secondary_analysis := secondary
    summary := summary
    legibility_score := legibility_score }

/-- `classify_document`, with the flow (`get_prompt_flow`), the available
prompt names and the three client calls supplied as parameters (the
configuration load of line 55 happens before any collaborator is invoked and
may raise only for malformed configuration, which the parameters abstract).
The two unguarded fallible steps are the secondary-analysis structuring and
the category-conflict resolution. -/
def classify_document (promptNames : List String) (flow : List FlowNode)
    (oracle : String → Py Val) (oracleSecondary : Py Val)
    (doc_id : String) (pages : List (Int × String)) (signals : DetectorSignals)
    (image_count : Int) (images_data : List Val)
    (legibility_score : Option ℚ) : Py ClassificationResult :=
  let st := run_flow_engine promptNames oracle signals images_data flow {}
  let tree := tree_of_state signals flow st
  let primary := build_primary_analysis tree "models/gemini-1.5-pro-latest"
  match structure_secondary_analysis (secondary_raw_of oracleSecondary) with
  | .error e => .error e
  | .ok secondary =>
    let ag := compute_llm_agreement primary secondary
    let secondary_label := if !pyTruthy secondary.error then secondary.label else Val.none
    match resolve_category_conflict primary.category secondary_label with
    | .error e => .error e
    | .ok final_category_to_use =>
      .ok (assemble_result doc_id pages signals image_count legibility_score st tree primary
            secondary ag.1 ag.2 secondary_label final_category_to_use)

/-! ### Flow Library (`app/prompt_lib.py`)

`load_prompt_library` is an `lru_cache`d parse of the configuration file;
`get_prompt` returns `cfg["prompts"][name]` directly, while
`get_prompt_flow` returns `deepcopy(...)`.  To make sharing and mutation
observable, configuration values live in an explicit heap: containers are
heap objects reached through references, strings are immutable values. -/

/-- A parsed configuration tree (the pure result of `yaml.safe_load`). -/
inductive CVal where
  | cstr (s : String) : CVal
  | cbool (b : Bool) : CVal
  | clist (xs : List CVal) : CVal
  | cdict (es : List (String × CVal)) : CVal
deriving Repr

/-- A heap value: an immutable atom or a reference to a container. -/
inductive HVal where
  | hstr (s : String) : HVal
  | hbool (b : Bool) : HVal
  | href (a : Nat) : HVal
deriving Repr, DecidableEq

/-- A heap object: a mutable list or dict. -/
inductive HObj where
  | hlist (items : List HVal) : HObj
  | hdict (entries : List (String × HVal)) : HObj
deriving Repr, DecidableEq

/-- Process state of the Flow Library: the heap, the allocation counter, the
`lru_cache` slot of `load_prompt_library`, and the number of actual parses
performed. -/
structure LibState where
  heap : List (Nat × HObj) := []
  next : Nat := 0
  cache : Option HVal := Option.none
  loads : Nat := 0
deriving Repr

/-- Heap lookup. -/
def hfind (heap : List (Nat × HObj)) (a : Nat) : Option HObj :=
  match heap with
  | [] => Option.none
  | (a', o) :: rest => if a' = a then some o else hfind rest a

/-- Heap update at an existing address. -/
def hset (heap : List (Nat × HObj)) (a : Nat) (o : HObj) : List (Nat × HObj) :=
  match heap with
  | [] => []
  | (a', o') :: rest => if a' = a then (a, o) :: rest else (a', o') :: hset rest a o

mutual

/-- Materialize a configuration tree on the heap (children before parents,
so references always point to older addresses).  Only the heap and the
allocation counter are threaded: allocation touches nothing else. -/
def halloc : CVal → List (Nat × HObj) → Nat → HVal × List (Nat × HObj) × Nat
  | .cstr s, heap, n => (.hstr s, heap, n)
  | .cbool b, heap, n => (.hbool b, heap, n)
  | .clist xs, heap, n =>
    let r := hallocList xs heap n
    (.href r.2.2, r.2.1 ++ [(r.2.2, .hlist r.1)], r.2.2 + 1)
  | .cdict es, heap, n =>
    let r := hallocEntries es heap n
    (.href r.2.2, r.2.1 ++ [(r.2.2, .hdict r.1)], r.2.2 + 1)

/-- Materialize the items of a list. -/
def hallocList : List CVal → List (Nat × HObj) → Nat → List HVal × List (Nat × HObj) × Nat
  | [], heap, n => ([], heap, n)
  | c :: cs, heap, n =>
    let r := halloc c heap n
    let r2 := hallocList cs r.2.1 r.2.2
    (r.1 :: r2.1, r2.2)

/-- Materialize the entries of a dict. -/
def hallocEntries :
    List (String × CVal) → List (Nat × HObj) → Nat →
      List (String × HVal) × List (Nat × HObj) × Nat
  | [], heap, n => ([], heap, n)
  | (k, c) :: es, heap, n =>
    let r := halloc c heap n
    let r2 := hallocEntries es r.2.1 r.2.2
    ((k, r.1) :: r2.1, r2.2)

end

mutual

/-- Read a heap value back into a pure tree (fuel-bounded; the heaps built
here are acyclic, and every theorem supplies ample fuel). -/
def hread : Nat → List (Nat × HObj) → HVal → Option CVal
  | _, _, .hstr s => some (.cstr s)
  | _, _, .hbool b => some (.cbool b)
  | 0, _, .href _ => Option.none
  | Nat.succ fuel, heap, .href a =>
    match hfind heap a with
    | some (.hlist items) => (hreadList fuel heap items).map CVal.clist
    | some (.hdict entries) => (hreadEntries fuel heap entries).map CVal.cdict
    | Option.none => Option.none

/-- Read back the items of a list object (fuel decreases on every call so
the mutual recursion is structural on the fuel). -/
def hreadList : Nat → List (Nat × HObj) → List HVal → Option (List CVal)
  | _, _, [] => some []
  | 0, _, _ :: _ => Option.none
  | Nat.succ fuel, heap, v :: vs =>
    match hread fuel heap v, hreadList fuel heap vs with
    | some c, some cs => some (c :: cs)
    | _, _ => Option.none

/-- Read back the entries of a dict object. -/
def hreadEntries : Nat → List (Nat × HObj) → List (String × HVal) → Option (List (String × CVal))
  | _, _, [] => some []
  | 0, _, _ :: _ => Option.none
  | Nat.succ fuel, heap, (k, v) :: vs =>
    match hread fuel heap v, hreadEntries fuel heap vs with
    | some c, some cs => some ((k, c) :: cs)
    | _, _ => Option.none

end

/-- `copy.deepcopy`: snapshot the object graph and materialize a fresh,
disjoint copy. -/
def hdeepcopy (v : HVal) (st : LibState) : Py (HVal × LibState) :=
  match hread (st.heap.length * 4 + 16) st.heap v with
  | some c =>
    let r := halloc c st.heap st.next
    .ok (r.1, { st with heap := r.2.1, next := r.2.2 })
  | Option.none => .error "RecursionError"

/-- Dict lookup through a reference. -/
def hgetkey (st : LibState) (v : HVal) (k : String) : Option HVal :=
  match v with
  | .href a =>
    match hfind st.heap a with
    | some (.hdict es) =>
      match es.find? (fun e => e.1 = k) with
      | some e => some e.2
      | Option.none => Option.none
    | _ => Option.none
  | _ => Option.none

/-- Truthiness of a heap value (`if not flow:`). -/
def hTruthy (st : LibState) (v : HVal) : Bool :=
  match v with
  | .hstr s => s ≠ ""
  | .hbool b => b
  | .href a =>
    match hfind st.heap a with
    | some (.hlist items) => !items.isEmpty
    | some (.hdict es) => !es.isEmpty
    | Option.none => false

/-- `target[k] = v` through a reference: mutates the heap object in place. -/
def hsetitem (st : LibState) (target : HVal) (k : String) (v : HVal) : LibState :=
  match target with
  | .href a =>
    match hfind st.heap a with
    | some (.hdict es) =>
      let es' :=
        match es.find? (fun e => e.1 = k) with
        | some _ => es.map (fun e => if e.1 = k then (k, v) else e)
        | Option.none => es ++ [(k, v)]
      { st with heap := hset st.heap a (.hdict es') }
    | _ => st
  | _ => st

/-- `load_prompt_library` (`@lru_cache`): the file is read and parsed only
when the cache slot is empty; afterwards the cached reference is returned
unchanged.  `config` is the parse of the configuration file. -/
def load_prompt_library (config : CVal) (st : LibState) : HVal × LibState :=
  match st.cache with
  | some v => (v, st)
  | Option.none =>
    let r := halloc config st.heap st.next
    (r.1, { heap := r.2.1, next := r.2.2, cache := some r.1, loads := st.loads + 1 })

/-- `get_prompt`: `cfg["prompts"][name]` — a direct reference into the
cached configuration, with `KeyError` on a missing key. -/
def get_prompt (config : CVal) (name : String) (st : LibState) : Py HVal × LibState :=
  let (cfg, st1) := load_prompt_library config st
  match hgetkey st1 cfg "prompts" with
  | Option.none => (.error "KeyError: prompts", st1)
  | some prompts =>
    match hgetkey st1 prompts name with
    | Option.none => (.error ("KeyError: " ++ name), st1)
    | some p => (.ok p, st1)

/-- The built-in `_DEFAULT_PROMPT_FLOW` of `app/prompt_lib.py`. -/
def DEFAULT_PROMPT_FLOW : CVal :=
  .clist
    [ .cdict [("id", .cstr "image_analysis"), ("prompt", .cstr "image_analysis"),
              ("runner", .cstr "multimodal"),
              ("conditions", .cdict [("has_images", .cbool true)]),
              ("stop_on_error", .cbool false)]
    , .cdict [("id", .cstr "precheck"), ("prompt", .cstr "precheck"),
              ("collect_summary", .cbool true)]
    , .cdict [("id", .cstr "pii_scan"), ("prompt", .cstr "pii_scan"),
              ("depends_on", .clist [.cstr "precheck"]),
              ("use_summary_pages", .cbool true),
              ("conditions", .cdict [("signals_true", .clist [.cstr "has_pii"])])]
    , .cdict [("id", .cstr "unsafe_scan"), ("prompt", .cstr "unsafe_scan"),
              ("depends_on", .clist [.cstr "precheck"]),
              ("use_summary_pages", .cbool true)]
    , .cdict [("id", .cstr "confidentiality_scan"), ("prompt", .cstr "confidentiality_scan"),
              ("depends_on", .clist [.cstr "precheck", .cstr "unsafe_scan"]),
              ("use_summary_pages", .cbool true)]
    , .cdict [("id", .cstr "final_decision"), ("prompt", .cstr "final_decision"),
              ("depends_on", .clist [.cstr "confidentiality_scan"]),
              ("use_summary_pages", .cbool true),
              ("final_node", .cbool true)] ]

/-- `get_prompt_flow`: the configured flow (or the built-in default when the
configured one is absent or falsy), deep-copied per call. -/
def get_prompt_flow (config : CVal) (st : LibState) : Py HVal × LibState :=
  let (cfg, st1) := load_prompt_library config st
  match hgetkey st1 cfg "prompt_flow" with
  | some f =>
    if hTruthy st1 f then
      match hdeepcopy f st1 with
      | .ok (v, st2) => (.ok v, st2)
      | .error e => (.error e, st1)
    else
      let r := halloc DEFAULT_PROMPT_FLOW st1.heap st1.next
      (.ok r.1, { st1 with heap := r.2.1, next := r.2.2 })
  | Option.none =>
    let r := halloc DEFAULT_PROMPT_FLOW st1.heap st1.next
    (.ok r.1, { st1 with heap := r.2.1, next := r.2.2 })

/-- The spec's description of deduplication, stated independently of the
seen-set implementation: keep the head, drop every later citation with the
same key, recurse. -/
def keepFirstOccurrences : List Citation → List Citation
  | [] => []
  | c :: rest => c :: keepFirstOccurrences (rest.filter (fun d => citeKey d ≠ citeKey c))
termination_by xs => xs.length
decreasing_by
  simp only [List.length_cons]
  exact Nat.lt_succ_of_le (List.length_filter_le _ _)

/-- The four sensitivity categories of the data model. -/
def sensitivity_categories : List String :=
  ["Unsafe", "Highly Sensitive", "Confidential", "Public"]

/-- C2 counterexample: with both hit lists non-empty, the fallback citations
are the first three PII hits, not the unsafe hits the claim prefers. -/
def c2_signals : DetectorSignals :=
  { has_pii := true
    has_unsafe_pattern := true
    pii_hits := [{ snippet := "ssn 123-45-6789", source := some "detector" }]
    unsafe_hits := [{ snippet := "weapon instructions", source := some "detector" }] }

/-- C4 counterexample input: primary carries confidence 0 (category
"Public"), the secondary agrees on the category with confidence 0.15. -/
def c4_primary : PrimaryAnalysis :=
  { engine := "fallback", model := "m", category := .str "Public",
    secondary_tags := .list [], confidence := 0, explanation := .str "", citations := [] }

/-- C4 counterexample input: agreeing label, confidence 0.15, no error. -/
def c4_secondary : SecondaryAnalysis :=
  { raw := .dict [], model := .str "m", label := .str "Public", confidence := 0.15,
    explanation := .str "", content_safety := .none, critical_info := .list [],
    needs_review := true, citations := .list [], error := .none }

/-- The `or 0.7` default applied to a confidence before the gap comparison:
a (falsy) zero confidence is replaced by 0.7. -/
def effConf (q : ℚ) : ℚ := if q = 0 then 0.7 else q

/-- C7 witness: a two-node flow with an always-failing client halts at the
first node with the error recorded and the first node terminal. -/
def c7_node : FlowNode := { id := "precheck", prompt := "precheck" }

/-- C7 witness: a later node that would run if the flow continued. -/
def c7_later : FlowNode := { id := "later", prompt := "later" }

/-- C7 witness: the client that always raises. -/
def c7_oracle : String → Py Val := fun _ => .error "llm down"

/-- The secondary analysis produced for an empty raw reply map (also the
value structured from `{}` after a caught secondary exception with empty
text): the error state of `_structure_secondary_analysis`. -/
def sa_error_empty : SecondaryAnalysis :=
  { raw := Val.dict [], model := Val.str "gpt-4o-mini", label := Val.none,
    confidence := 0.0, explanation := Val.str "Secondary LLM unavailable",
    content_safety := Val.none, critical_info := Val.list [], needs_review := true,
    citations := Val.list [], error := Val.str "secondary_llm_error" }

/-- C6 witness input: a secondary analysis with `needs_review = false`. -/
def c6_secondary_ok : SecondaryAnalysis :=
  { raw := Val.dict [], model := Val.str "m", label := Val.str "Public", confidence := 0.9,
    explanation := Val.str "", content_safety := Val.none, critical_info := Val.list [],
    needs_review := false, citations := Val.list [], error := Val.none }

/-- `flow[i]` through a reference: list indexing by a Flow Library caller. -/
def hindex (st : LibState) (v : HVal) (i : Nat) : Option HVal :=
  match v with
  | .href a =>
    match hfind st.heap a with
    | some (.hlist items) => items[i]?
    | _ => Option.none
  | _ => Option.none

/-- C8 configuration: one prompt `p` with content "x". -/
def cfgC8 : CVal :=
  .cdict [("prompts", .cdict [("p", .cdict [("role", .cstr "system"), ("content", .cstr "x")])])]

/-- C8 configuration with a one-node `prompt_flow`. -/
def cfgC8f : CVal :=
  .cdict [("prompts", .cdict [("p", .cdict [("role", .cstr "system"), ("content", .cstr "x")])]),
          ("prompt_flow", .clist [.cdict [("id", .cstr "n1"), ("prompt", .cstr "p1")]])]

/-! ### Theorems -/

theorem dedupe_go_idem (xs : List Citation) :
    ∀ seen, dedupe_citations_go seen (dedupe_citations_go seen xs) = dedupe_citations_go seen xs := by
  induction xs with
  | nil => intro seen; rfl
  | cons c rest ih =>
    intro seen
    by_cases h : citeKey c ∈ seen
    · rw [dedupe_citations_go, if_pos h, ih seen]
    · rw [dedupe_citations_go, if_neg h, dedupe_citations_go, if_neg h, ih (citeKey c :: seen)]

theorem dedupe_go_keepFirst (xs : List Citation) :
    ∀ seen, dedupe_citations_go seen xs
      = keepFirstOccurrences (xs.filter (fun c => decide (citeKey c ∉ seen))) := by
  induction xs with
  | nil => intro seen; simp [dedupe_citations_go, keepFirstOccurrences]
  | cons c rest ih =>
    intro seen
    by_cases h : citeKey c ∈ seen
    · rw [dedupe_citations_go, if_pos h, List.filter_cons_of_neg (by simpa using h), ih seen]
    · rw [dedupe_citations_go, if_neg h, List.filter_cons_of_pos (by simpa using h),
        keepFirstOccurrences, ih (citeKey c :: seen), List.filter_filter]
      congr 2
      apply List.filter_congr
      intro d _
      by_cases hd : citeKey d = citeKey c
      · simp [hd]
      · by_cases hs : citeKey d ∈ seen <;> simp [hd, hs]

/-- C9: `_dedupe_citations` is idempotent, and it keeps exactly the first
occurrence of each dedup key `(page, image_index, trimmed region, source,
first 120 characters of the trimmed snippet)`, preserving the relative order
of those first occurrences (the right conjunct equates it with the
keep-head-drop-later-duplicates recursion `keepFirstOccurrences`). -/
theorem dedupe_citations_idempotent_first_occurrence :
    (∀ xs : List Citation, dedupe_citations (dedupe_citations xs) = dedupe_citations xs) ∧
    (∀ xs : List Citation, dedupe_citations xs = keepFirstOccurrences xs) := by
  constructor
  · intro xs
    exact dedupe_go_idem xs []
  · intro xs
    rw [dedupe_citations, dedupe_go_keepFirst xs []]
    congr 1
    apply List.filter_eq_self.mpr
    intro d _
    simp

/-- C2 is false as stated: at `c2_signals` both detector hit lists are
non-empty, yet the fallback citations are the PII hits, not the unsafe hits
the claim says are preferred. -/
theorem fallback_citations_not_unsafe_preferred :
    c2_signals.pii_hits ≠ [] ∧ c2_signals.unsafe_hits ≠ [] ∧
    (fallback_decision c2_signals).citations ≠ c2_signals.unsafe_hits.take 3 ∧
    (fallback_decision c2_signals).citations = c2_signals.pii_hits.take 3 := by
  refine ⟨by decide, by decide, by decide, by decide⟩

/-- C2 (amended): the fallback citations are the first three PII hit spans
when `pii_hits` is non-empty, and the first three unsafe hit spans only when
`pii_hits` is empty (`(signals.pii_hits or signals.unsafe_hits)[:3]`). -/
theorem fallback_citations_pii_preferred (signals : DetectorSignals) :
    (fallback_decision signals).citations
      = (if signals.pii_hits = [] then signals.unsafe_hits else signals.pii_hits).take 3 := by
  rw [fallback_decision]
  cases h : signals.pii_hits <;> simp [h]

/-- C5: category conflict resolution returns the other argument when one is
absent, and otherwise the argument ranked higher by the severity table
{Unsafe 4, Highly Sensitive 3, Confidential 2, Public 1}, preferring the
first argument on ties; in particular `resolve("Unsafe","Public")="Unsafe"`
and `resolve("Confidential","Confidential")="Confidential"`. -/
theorem resolve_category_conflict_spec :
    (∀ a : String, a ∈ sensitivity_categories →
      resolve_category_conflict (.str a) Val.none = .ok (.str a)) ∧
    (∀ b : String, b ∈ sensitivity_categories →
      resolve_category_conflict Val.none (.str b) = .ok (.str b)) ∧
    (∀ a b : String, a ∈ sensitivity_categories → b ∈ sensitivity_categories →
      resolve_category_conflict (.str a) (.str b)
        = .ok (.str (if priorityTable b ≤ priorityTable a then a else b))) ∧
    resolve_category_conflict (.str "Unsafe") (.str "Public") = .ok (.str "Unsafe") ∧
    resolve_category_conflict (.str "Confidential") (.str "Confidential")
      = .ok (.str "Confidential") := by
  refine ⟨?_, ?_, ?_, rfl, rfl⟩
  · intro a ha
    simp only [sensitivity_categories, List.mem_cons, List.not_mem_nil, or_false] at ha
    rcases ha with rfl | rfl | rfl | rfl <;> rfl
  · intro b hb
    simp only [sensitivity_categories, List.mem_cons, List.not_mem_nil, or_false] at hb
    rcases hb with rfl | rfl | rfl | rfl <;> rfl
  · intro a b ha hb
    simp only [sensitivity_categories, List.mem_cons, List.not_mem_nil, or_false] at ha hb
    rcases ha with rfl | rfl | rfl | rfl <;> rcases hb with rfl | rfl | rfl | rfl <;> rfl

/-- C5 witness: the membership hypotheses are discharged at
`("Highly Sensitive", "Public")`. -/
theorem resolve_category_conflict_spec_witness :
    ("Highly Sensitive" ∈ sensitivity_categories ∧ "Public" ∈ sensitivity_categories) ∧
    resolve_category_conflict (.str "Highly Sensitive") (.str "Public")
      = .ok (.str (if priorityTable "Public" ≤ priorityTable "Highly Sensitive"
                   then "Highly Sensitive" else "Public")) :=
  ⟨⟨by decide, by decide⟩,
   resolve_category_conflict_spec.2.2.1 "Highly Sensitive" "Public" (by decide) (by decide)⟩

/-- C4 is false as stated: at (`c4_primary`, `c4_secondary`) the categories
are non-empty and equal and the raw confidence gap is 0.15 < 0.2, so the
claim predicts a confidence component of 1.0 and a score of 1.0 — but the
code replaces the zero primary confidence by 0.7 (`or 0.7`) and returns
0.75 with a recorded gap of 0.55. -/
theorem agreement_score_zero_confidence_counterexample :
    pyTruthy c4_secondary.error = false ∧
    pyTruthy c4_primary.category = true ∧
    pyTruthy c4_secondary.label = true ∧
    pyEq c4_primary.category c4_secondary.label = true ∧
    absQ (c4_primary.confidence - c4_secondary.confidence) < 0.2 ∧
    compute_llm_agreement c4_primary c4_secondary = (0.75, ["confidence_gap: 0.55"]) ∧
    (0.75 : ℚ) ≠ (1.0 + 1.0) / 2 := by
  refine ⟨rfl, rfl, rfl, rfl, by with_unfolding_all decide, by with_unfolding_all rfl,
    by norm_num⟩

/-- C4 (amended): the agreement score always lies in {0, 0.25, 0.5, 0.75, 1}
and is 0 exactly when the secondary analysis carries an error (with
disagreements exactly `["secondary_llm_error"]`); otherwise it is the average
of the category component (1 iff both categories truthy and equal) and the
confidence component (1 if the gap of the effective confidences — a zero
confidence counts as 0.7 — is < 0.2, else 0.5), with the matching
disagreement strings recorded; for string-valued categories the category
component fires exactly on non-empty equal strings. -/
theorem catMatch_iff_strings (p : PrimaryAnalysis) (s : SecondaryAnalysis) :
    ∀ pc sl : String, p.category = .str pc → s.label = .str sl →
      ((pyTruthy p.category && pyTruthy s.label && pyEq p.category s.label) = true
        ↔ (pc ≠ "" ∧ sl ≠ "" ∧ pc = sl)) := by
  intro pc sl hp hs
  rw [hp, hs]
  show (pyTruthy (.str pc) && pyTruthy (.str sl) && pyEq (.str pc) (.str sl)) = true ↔ _
  rw [pyEq]
  simp [pyTruthy, numQ, and_assoc]

/-- C4 (amended): the agreement score always lies in {0, 0.25, 0.5, 0.75, 1}
and is 0 exactly when the secondary analysis carries an error (with
disagreements exactly `["secondary_llm_error"]`); otherwise it is the average
of the category component (1 iff both categories truthy and equal) and the
confidence component (1 if the gap of the effective confidences — a zero
confidence counts as 0.7, the `or 0.7` default — is < 0.2, else 0.5), with
the matching disagreement strings recorded; for string-valued categories the
category component fires exactly on non-empty equal strings. -/
theorem compute_llm_agreement_spec :
    ∀ (p : PrimaryAnalysis) (s : SecondaryAnalysis),
      ((compute_llm_agreement p s).1 ∈ ({0, 0.25, 0.5, 0.75, 1} : Set ℚ)) ∧
      ((compute_llm_agreement p s).1 = 0 ↔ pyTruthy s.error = true) ∧
      (pyTruthy s.error = true → compute_llm_agreement p s = (0, ["secondary_llm_error"])) ∧
      (pyTruthy s.error = false →
        compute_llm_agreement p s =
          (((if (pyTruthy p.category && pyTruthy s.label && pyEq p.category s.label) = true
             then (1.0 : ℚ) else 0.0) +
            (if absQ (effConf p.confidence - effConf s.confidence) < 0.2
             then (1.0 : ℚ) else 0.5)) / 2,
           (if (pyTruthy p.category && pyTruthy s.label && pyEq p.category s.label) = true
            then ([] : List String)
            else ["category: primary=" ++ pyStr p.category ++ ", secondary=" ++ pyStr s.label]) ++
           (if absQ (effConf p.confidence - effConf s.confidence) < 0.2 then ([] : List String)
            else ["confidence_gap: " ++ format2 (absQ (effConf p.confidence - effConf s.confidence))]))) ∧
      (∀ pc sl : String, p.category = .str pc → s.label = .str sl →
        ((pyTruthy p.category && pyTruthy s.label && pyEq p.category s.label) = true
          ↔ (pc ≠ "" ∧ sl ≠ "" ∧ pc = sl))) := by
  intro p s
  by_cases he : pyTruthy s.error = true
  · have heq : compute_llm_agreement p s = (0, ["secondary_llm_error"]) := by
      rw [compute_llm_agreement, if_pos he]
      with_unfolding_all rfl
    refine ⟨?_, ?_, fun _ => heq, ?_, catMatch_iff_strings p s⟩
    · rw [heq]; simp
    · rw [heq]; simp [he]
    · intro hfalse; rw [hfalse] at he; exact absurd he (by simp)
  · have he' : pyTruthy s.error = false := by
      cases h : pyTruthy s.error
      · rfl
      · exact absurd h he
    have hunfold :
        compute_llm_agreement p s =
          (((if (pyTruthy p.category && pyTruthy s.label && pyEq p.category s.label) = true
             then (1.0 : ℚ) else 0.0) +
            (if absQ (effConf p.confidence - effConf s.confidence) < 0.2
             then (1.0 : ℚ) else 0.5)) / 2,
           (if (pyTruthy p.category && pyTruthy s.label && pyEq p.category s.label) = true
            then ([] : List String)
            else ["category: primary=" ++ pyStr p.category ++ ", secondary=" ++ pyStr s.label]) ++
           (if absQ (effConf p.confidence - effConf s.confidence) < 0.2 then ([] : List String)
            else ["confidence_gap: " ++ format2 (absQ (effConf p.confidence - effConf s.confidence))])) := by
      rw [compute_llm_agreement, if_neg he]
      with_unfolding_all rfl
    refine ⟨?_, ?_, ?_, fun _ => hunfold, catMatch_iff_strings p s⟩
    · rw [hunfold]
      by_cases h1 : (pyTruthy p.category && pyTruthy s.label && pyEq p.category s.label) = true <;>
        by_cases h2 : absQ (effConf p.confidence - effConf s.confidence) < 0.2 <;>
          simp only [h1, h2, if_pos, if_neg, if_true, if_false, Set.mem_insert_iff,
            Set.mem_singleton_iff] <;> norm_num
    · constructor
      · intro h0
        exfalso
        rw [hunfold] at h0
        by_cases h1 : (pyTruthy p.category && pyTruthy s.label && pyEq p.category s.label) = true <;>
          by_cases h2 : absQ (effConf p.confidence - effConf s.confidence) < 0.2 <;>
            simp only [h1, h2, if_pos, if_neg, if_true, if_false] at h0 <;> norm_num at h0
      · intro h; exact absurd h he
    · intro h; exact absurd h he

/-- C4 witness: the error clause, the non-error decomposition and the
string-category clause instantiated at concrete analyses. -/
theorem compute_llm_agreement_spec_witness :
    pyTruthy sa_error_empty.error = true ∧
    compute_llm_agreement c4_primary sa_error_empty = (0, ["secondary_llm_error"]) ∧
    pyTruthy c4_secondary.error = false ∧
    compute_llm_agreement c4_primary c4_secondary =
      (((if (pyTruthy c4_primary.category && pyTruthy c4_secondary.label &&
             pyEq c4_primary.category c4_secondary.label) = true
         then (1.0 : ℚ) else 0.0) +
        (if absQ (effConf c4_primary.confidence - effConf c4_secondary.confidence) < 0.2
         then (1.0 : ℚ) else 0.5)) / 2,
       (if (pyTruthy c4_primary.category && pyTruthy c4_secondary.label &&
            pyEq c4_primary.category c4_secondary.label) = true
        then ([] : List String)
        else ["category: primary=" ++ pyStr c4_primary.category ++ ", secondary="
                ++ pyStr c4_secondary.label]) ++
       (if absQ (effConf c4_primary.confidence - effConf c4_secondary.confidence) < 0.2
        then ([] : List String)
        else ["confidence_gap: "
                ++ format2 (absQ (effConf c4_primary.confidence
                                   - effConf c4_secondary.confidence))])) ∧
    (((pyTruthy c4_primary.category && pyTruthy c4_secondary.label &&
       pyEq c4_primary.category c4_secondary.label) = true)
      ↔ ("Public" ≠ "" ∧ "Public" ≠ "" ∧ ("Public" : String) = "Public")) :=
  ⟨rfl,
   (compute_llm_agreement_spec c4_primary sa_error_empty).2.2.1 rfl,
   rfl,
   (compute_llm_agreement_spec c4_primary c4_secondary).2.2.2.1 rfl,
   (compute_llm_agreement_spec c4_primary c4_secondary).2.2.2.2 "Public" "Public" rfl rfl⟩

/-- C7: a runnable node whose execution yields a failure marker, with
`stop_on_error` at its default `true`, appends its id to the error list,
halts the flow (the resulting state does not depend on the remaining
nodes) and becomes the terminal node. -/
theorem node_failure_halts_flow (promptNames : List String) (oracle : String → Py Val)
    (signals : DetectorSignals) (images_data : List Val) (node : FlowNode)
    (rest : List FlowNode) (st : FlowState)
    (h1 : should_run_node node signals images_data = true)
    (h2 : dependencies_ready node st.flow_outputs = true)
    (h3 : ((node.runner = some "multimodal") && images_data.isEmpty) = false)
    (h4 : output_has_error (execute_node promptNames oracle node) = true)
    (h5 : node.stop_on_error = true)
    (h6 : st.final_node_id = Option.none) :
    run_flow_engine promptNames oracle signals images_data (node :: rest) st =
      { st with
          flow_outputs :=
            assocSet st.flow_outputs node.id (execute_node promptNames oracle node),
          prompt_errors := st.prompt_errors ++ [node.id],
          final_node_id := some node.id } := by
  rw [run_flow_engine]
  rw [if_neg (by simp [h1]), if_neg (by simp [h2]), if_neg (by simp [h3])]
  simp only [h4, h5, Bool.not_true, Bool.and_self, if_false, if_true, idOr, h6]
  simp

/-- C7 witness: concrete instantiation of `node_failure_halts_flow`. -/
theorem node_failure_halts_flow_witness :
    should_run_node c7_node {} [] = true ∧
    output_has_error (execute_node [] c7_oracle c7_node) = true ∧
    c7_node.stop_on_error = true ∧
    run_flow_engine [] c7_oracle {} [] [c7_node, c7_later] {} =
      { flow_outputs := assocSet [] c7_node.id (execute_node [] c7_oracle c7_node),
        prompt_errors := [] ++ [c7_node.id],
        summary_pages := [],
        audit_citations := [],
        final_node_id := some c7_node.id } :=
  ⟨rfl, rfl, rfl,
   node_failure_halts_flow [] c7_oracle {} [] c7_node [c7_later] {} rfl rfl rfl rfl rfl rfl⟩

theorem output_has_error_mock_marker (e tag : String) :
    output_has_error (mock_marker e tag) = true := rfl

theorem execute_node_fails (promptNames : List String) (oracle : String → Py Val)
    (node : FlowNode) (hf : ∀ nid, raised (oracle nid) = true) :
    output_has_error (execute_node promptNames oracle node) = true := by
  rw [execute_node]
  by_cases hp : node.prompt ∈ promptNames
  · rw [if_pos hp]
    cases ho : oracle node.id with
    | ok v =>
      have := hf node.id
      rw [ho] at this
      exact absurd this (by simp [raised])
    | error e =>
      by_cases hm : node.runner = some "multimodal" <;>
        simp [hm, output_has_error_mock_marker]
  · rw [if_neg hp]
    exact output_has_error_mock_marker _ _

theorem dlookup_mem {m : List (String × Val)} {k : String} {v : Val} :
    dlookup m k = some v → (k, v) ∈ m := by
  induction m with
  | nil => intro h; simp [dlookup] at h
  | cons p rest ih =>
    obtain ⟨k', v'⟩ := p
    intro h
    rw [dlookup] at h
    by_cases hk : k' = k
    · rw [if_pos hk] at h
      injection h with h
      subst hk; subst h
      exact List.mem_cons_self _ _
    · rw [if_neg hk] at h
      exact List.mem_cons_of_mem _ (ih h)

theorem assocSet_mem {m : List (String × Val)} {k : String} {v : Val} {p : String × Val} :
    p ∈ assocSet m k v → p = (k, v) ∨ p ∈ m := by
  induction m with
  | nil =>
    intro h
    rw [assocSet] at h
    simp at h
    exact Or.inl h
  | cons q rest ih =>
    obtain ⟨k', v'⟩ := q
    intro h
    rw [assocSet] at h
    by_cases hk : k' = k
    · rw [if_pos hk] at h
      rcases List.mem_cons.mp h with h | h
      · subst hk; exact Or.inl h
      · exact Or.inr (List.mem_cons_of_mem _ h)
    · rw [if_neg hk] at h
      rcases List.mem_cons.mp h with h | h
      · exact Or.inr (by rw [h]; exact List.mem_cons_self _ _)
      · rcases ih h with h | h
        · exact Or.inl h
        · exact Or.inr (List.mem_cons_of_mem _ h)

theorem run_flow_engine_all_fail (promptNames : List String) (oracle : String → Py Val)
    (signals : DetectorSignals) (imgs : List Val)
    (hf : ∀ nid, raised (oracle nid) = true) :
    ∀ (nodes : List FlowNode) (st : FlowState),
      (∀ p ∈ st.flow_outputs, output_has_error p.2 = true) →
      ((∀ p ∈ (run_flow_engine promptNames oracle signals imgs nodes st).flow_outputs,
          output_has_error p.2 = true) ∧
       (run_flow_engine promptNames oracle signals imgs nodes st).audit_citations
         = st.audit_citations) := by
  intro nodes
  induction nodes with
  | nil => intro st hinv; exact ⟨hinv, rfl⟩
  | cons node rest ih =>
    intro st hinv
    have herr : output_has_error (execute_node promptNames oracle node) = true :=
      execute_node_fails promptNames oracle node hf
    have hinv1 : ∀ p ∈ assocSet st.flow_outputs node.id (execute_node promptNames oracle node),
        output_has_error p.2 = true := by
      intro p hp
      rcases assocSet_mem hp with rfl | hp2
      · exact herr
      · exact hinv p hp2
    rw [run_flow_engine]
    by_cases h1 : should_run_node node signals imgs = true
    · rw [if_neg (by simp [h1])]
      by_cases h2 : dependencies_ready node st.flow_outputs = true
      · rw [if_neg (by simp [h2])]
        by_cases h3 : ((node.runner = some "multimodal") && imgs.isEmpty) = true
        · rw [if_pos h3]; exact ih st hinv
        · rw [if_neg h3]
          simp only [herr, Bool.not_true, if_false, Bool.true_and]
          by_cases h5 : node.stop_on_error = true
          · rw [if_pos h5]
            exact ⟨hinv1, rfl⟩
          · rw [if_neg h5]
            by_cases h6 : node.collect_summary = true
            · rw [if_pos h6]
              by_cases h7 : stop_conditions_met node (execute_node promptNames oracle node) = true
              · rw [if_pos h7]; exact ⟨hinv1, rfl⟩
              · rw [if_neg h7]
                by_cases h8 : node.final_node = true
                · rw [if_pos h8]; exact ⟨hinv1, rfl⟩
                · rw [if_neg h8]; exact ih _ hinv1
            · rw [if_neg h6]
              by_cases h7 : stop_conditions_met node (execute_node promptNames oracle node) = true
              · rw [if_pos h7]; exact ⟨hinv1, rfl⟩
              · rw [if_neg h7]
                by_cases h8 : node.final_node = true
                · rw [if_pos h8]; exact ⟨hinv1, rfl⟩
                · rw [if_neg h8]; exact ih _ hinv1
      · rw [if_pos (by simp [h2])]; exact ih st hinv
    · rw [if_pos (by simp [h1])]; exact ih st hinv

theorem tree_of_state_all_fail (promptNames : List String) (oracle : String → Py Val)
    (signals : DetectorSignals) (imgs : List Val) (flow : List FlowNode)
    (hf : ∀ nid, raised (oracle nid) = true) :
    tree_of_state signals flow (run_flow_engine promptNames oracle signals imgs flow {})
      = fallback_tree signals [] := by
  obtain ⟨hinv, haudit⟩ :=
    run_flow_engine_all_fail promptNames oracle signals imgs hf flow {}
      (by intro p hp; simp [FlowState.flow_outputs] at hp)
  set st := run_flow_engine promptNames oracle signals imgs flow ({} : FlowState) with hst
  have hcases : (!pyTruthy (final_out_of flow st)) = true ∨
      output_has_error (final_out_of flow st) = true := by
    rw [final_out_of]
    cases ht : terminal_node_id flow st with
    | none => left; rfl
    | some fid =>
      show (!pyTruthy (if fid ≠ "" then (dlookup st.flow_outputs fid).getD Val.none
                       else Val.none)) = true ∨
        output_has_error (if fid ≠ "" then (dlookup st.flow_outputs fid).getD Val.none
                          else Val.none) = true
      by_cases hfid : fid ≠ ""
      · rw [if_pos hfid]
        cases hl : dlookup st.flow_outputs fid with
        | none => left; rfl
        | some v =>
          right
          simpa using hinv (fid, v) (dlookup_mem hl)
      · rw [if_neg hfid]; left; rfl
  rw [tree_of_state]
  rcases hcases with h | h
  · rw [if_pos (by rw [h]; rfl), haudit]
  · rw [if_pos (by rw [h]; simp), haudit]

theorem structure_secondary_error_raw (e2 : String) :
    ∃ sa : SecondaryAnalysis,
      structure_secondary_analysis (Val.dict [("error", Val.str e2)]) = .ok sa ∧
      sa.label = Val.none := by
  by_cases h : e2 = ""
  · subst h
    exact ⟨_, rfl, rfl⟩
  · have he : pyTruthy (Val.str e2) = true := by simp [pyTruthy, h]
    refine ⟨{ raw := Val.dict [("error", Val.str e2)], model := Val.str "gpt-4o-mini",
              label := Val.none, confidence := 0.0, explanation := Val.str e2,
              content_safety := Val.none, critical_info := Val.list [], needs_review := true,
              citations := Val.list [], error := Val.str e2 }, ?_, rfl⟩
    simp only [structure_secondary_analysis, pyTruthy, dlookup, pyOr, pyFloat, he]
    simp [he, h]

theorem classify_all_fail_category (promptNames : List String) (flow : List FlowNode)
    (oracle : String → Py Val) (e2 : String) (doc_id : String) (pages : List (Int × String))
    (signals : DetectorSignals) (ic : Int) (imgs : List Val) (leg : Option ℚ)
    (hf : ∀ nid, raised (oracle nid) = true) :
    (classify_document promptNames flow oracle (.error e2) doc_id pages signals ic imgs leg).map
        (fun r => (r.final_category, r.confidence, r.secondary_tags))
      = .ok (.str (fallback_decision signals).cat, 0.7,
             .list ((fallback_decision signals).tags.map Val.str)) := by
  obtain ⟨sa, hsa, hlabel⟩ := structure_secondary_error_raw e2
  have htree := tree_of_state_all_fail promptNames oracle signals imgs flow hf
  have hsl : (if !pyTruthy sa.error then sa.label else Val.none) = Val.none := by
    cases hpe : (!pyTruthy sa.error) <;> simp [hlabel]
  have hcat : (fallback_decision signals).cat ≠ "" := by
    rw [fallback_decision]
    by_cases h1 : signals.has_unsafe_pattern <;>
      by_cases h2 : signals.has_pii <;>
        by_cases h3 : signals.has_internal_markers <;>
          simp [h1, h2, h3]
  simp only [classify_document, secondary_raw_of, htree, hsa]
  have hres : resolve_category_conflict
      (build_primary_analysis (fallback_tree signals []) "models/gemini-1.5-pro-latest").category
      (if !pyTruthy sa.error then sa.label else Val.none) = .ok (.str (fallback_decision signals).cat) := by
    rw [hsl]
    show resolve_category_conflict (.str (fallback_decision signals).cat) Val.none = _
    rw [resolve_category_conflict]
    rw [if_neg (by simp [pyTruthy, hcat])]
    simp [pyTruthy]
  rw [hres]
  simp only [Except.map]
  have hm : pyEq (Val.str (fallback_decision signals).cat) Val.none = false := by
    simp [pyEq, numQ]
  have hconf : (fallback_decision signals).confidence = 0.7 := rfl
  simp [assemble_result, build_primary_analysis, fallback_tree, hm, hlabel, hconf]

/-- C3: the fallback ladder evaluates `has_unsafe_pattern`, `has_pii`,
`has_internal_markers` in that fixed priority order, at confidence 0.7 with
the listed category/tag pairs; end to end, when every model call raises
(flow client and secondary reasoning alike), `classify_document` returns the
ladder's verdict — "Unsafe"/0.7/["Safety-Risk"] under an unsafe signal and
"Public"/0.7/[] when all signals are false. -/
theorem fallback_ladder_spec :
    (∀ signals : DetectorSignals,
      (fallback_decision signals).confidence = 0.7 ∧
      (signals.has_unsafe_pattern = true →
        (fallback_decision signals).cat = "Unsafe" ∧
        (fallback_decision signals).tags = ["Safety-Risk"]) ∧
      (signals.has_unsafe_pattern = false → signals.has_pii = true →
        (fallback_decision signals).cat = "Highly Sensitive" ∧
        (fallback_decision signals).tags = ["PII"]) ∧
      (signals.has_unsafe_pattern = false → signals.has_pii = false →
        signals.has_internal_markers = true →
        (fallback_decision signals).cat = "Confidential" ∧
        (fallback_decision signals).tags = ["Internal"]) ∧
      (signals.has_unsafe_pattern = false → signals.has_pii = false →
        signals.has_internal_markers = false →
        (fallback_decision signals).cat = "Public" ∧
        (fallback_decision signals).tags = [])) ∧
    (∀ (promptNames : List String) (flow : List FlowNode) (oracle : String → Py Val)
       (e2 doc_id : String) (pages : List (Int × String)) (signals : DetectorSignals)
       (ic : Int) (imgs : List Val) (leg : Option ℚ),
      (∀ nid, raised (oracle nid) = true) →
      signals.has_unsafe_pattern = true →
      (classify_document promptNames flow oracle (.error e2) doc_id pages signals ic imgs
          leg).map (fun r => (r.final_category, r.confidence, r.secondary_tags))
        = .ok (.str "Unsafe", 0.7, .list [.str "Safety-Risk"])) ∧
    (∀ (promptNames : List String) (flow : List FlowNode) (oracle : String → Py Val)
       (e2 doc_id : String) (pages : List (Int × String)) (signals : DetectorSignals)
       (ic : Int) (imgs : List Val) (leg : Option ℚ),
      (∀ nid, raised (oracle nid) = true) →
      signals.has_unsafe_pattern = false → signals.has_pii = false →
      signals.has_internal_markers = false →
      (classify_document promptNames flow oracle (.error e2) doc_id pages signals ic imgs
          leg).map (fun r => (r.final_category, r.confidence, r.secondary_tags))
        = .ok (.str "Public", 0.7, .list [])) := by
  refine ⟨?_, ?_, ?_⟩
  · intro signals
    refine ⟨rfl, ?_, ?_, ?_, ?_⟩
    · intro h1; rw [fallback_decision]; simp [h1]
    · intro h1 h2; rw [fallback_decision]; simp [h1, h2]
    · intro h1 h2 h3; rw [fallback_decision]; simp [h1, h2, h3]
    · intro h1 h2 h3; rw [fallback_decision]; simp [h1, h2, h3]
  · intro pn flow oracle e2 doc pages signals ic imgs leg hf hu
    have h := classify_all_fail_category pn flow oracle e2 doc pages signals ic imgs leg hf
    rw [h]
    rw [fallback_decision]
    simp [hu]
  · intro pn flow oracle e2 doc pages signals ic imgs leg hf h1 h2 h3
    have h := classify_all_fail_category pn flow oracle e2 doc pages signals ic imgs leg hf
    rw [h]
    rw [fallback_decision]
    simp [h1, h2, h3]

/-- C3 witness: the all-fail clauses instantiated with concrete oracles at
an unsafe-signalled document and at an all-false one. -/
theorem fallback_ladder_spec_witness :
    ((∀ nid, raised ((fun _ => Except.error "down" : String → Py Val) nid) = true) ∧
     (classify_document [] [] (fun _ => Except.error "down") (.error "sec down") "d" []
         { has_unsafe_pattern := true } 0 [] Option.none).map
        (fun r => (r.final_category, r.confidence, r.secondary_tags))
       = .ok (.str "Unsafe", 0.7, .list [.str "Safety-Risk"])) ∧
    ((classify_document [] [] (fun _ => Except.error "down") (.error "sec down") "d" []
         {} 0 [] Option.none).map
        (fun r => (r.final_category, r.confidence, r.secondary_tags))
       = .ok (.str "Public", 0.7, .list [])) :=
  ⟨⟨fun _ => rfl,
    fallback_ladder_spec.2.1 [] [] (fun _ => Except.error "down") "sec down" "d" []
      { has_unsafe_pattern := true } 0 [] Option.none (fun _ => rfl) rfl⟩,
   fallback_ladder_spec.2.2 [] [] (fun _ => Except.error "down") "sec down" "d" []
     {} 0 [] Option.none (fun _ => rfl) rfl rfl rfl⟩

/-- C1 is false as stated: a secondary-reasoning reply that is a plain map
with a non-numeric `confidence` field (`{"label": "Public", "confidence":
"high"}`) makes `classify_document` raise — the `float(...)` coercion in
`_structure_secondary_analysis` is not guarded by any handler. -/
theorem classify_document_raises_on_bad_confidence :
    raised (classify_document [] [] (fun _ => Except.error "down")
      (.ok (Val.dict [("label", Val.str "Public"), ("confidence", Val.str "high")]))
      "d1" [] {} 0 [] Option.none) = true := by
  with_unfolding_all rfl

/-- C1 (amended): `classify_document` never raises for model, parsing, or
secondary-reasoning failures, provided the two unguarded steps succeed: the
structuring of the secondary reply (its confidence field, when used, must be
float-coercible) and the category-conflict resolution (the category values
compared must be hashable when both are truthy).  Every handled failure
degrades to the deterministic fallback instead of raising. -/
theorem classify_document_no_uncaught_raise
    (promptNames : List String) (flow : List FlowNode) (oracle : String → Py Val)
    (oracleSecondary : Py Val) (doc_id : String) (pages : List (Int × String))
    (signals : DetectorSignals) (ic : Int) (imgs : List Val) (leg : Option ℚ)
    (sa : SecondaryAnalysis)
    (hA : structure_secondary_analysis (secondary_raw_of oracleSecondary) = .ok sa)
    (hB : raised (resolve_category_conflict
            (tree_of_state signals flow
              (run_flow_engine promptNames oracle signals imgs flow {})).final_category
            (if !pyTruthy sa.error then sa.label else Val.none)) = false) :
    raised (classify_document promptNames flow oracle oracleSecondary doc_id pages signals
      ic imgs leg) = false := by
  have hcat : (build_primary_analysis
      (tree_of_state signals flow (run_flow_engine promptNames oracle signals imgs flow {}))
      "models/gemini-1.5-pro-latest").category
      = (tree_of_state signals flow
          (run_flow_engine promptNames oracle signals imgs flow {})).final_category := rfl
  simp only [classify_document, hA]
  cases hr : resolve_category_conflict
      (build_primary_analysis
        (tree_of_state signals flow (run_flow_engine promptNames oracle signals imgs flow {}))
        "models/gemini-1.5-pro-latest").category
      (if !pyTruthy sa.error then sa.label else Val.none) with
  | error e =>
    rw [hcat] at hr
    rw [hr] at hB
    exact absurd hB (by simp [raised])
  | ok fc => simp [raised]

/-- C1 witness: with an empty flow, an always-failing flow client and an
empty secondary reply, both hypotheses hold by computation and
`classify_document` does not raise. -/
theorem classify_document_no_uncaught_raise_witness :
    structure_secondary_analysis (secondary_raw_of (.ok (Val.dict []))) = .ok sa_error_empty ∧
    raised (resolve_category_conflict
        (tree_of_state {} []
          (run_flow_engine [] (fun _ => Except.error "down") {} [] [] {})).final_category
        (if !pyTruthy sa_error_empty.error then sa_error_empty.label else Val.none)) = false ∧
    raised (classify_document [] [] (fun _ => Except.error "down") (.ok (Val.dict []))
      "d" [] {} 0 [] Option.none) = false :=
  ⟨rfl, rfl,
   classify_document_no_uncaught_raise [] [] (fun _ => Except.error "down")
     (.ok (Val.dict [])) "d" [] {} 0 [] Option.none sa_error_empty rfl rfl⟩

theorem mem_trigger_ite {c : Prop} [Decidable c] {x y : String} :
    x ∈ (if c then [y] else ([] : List String)) ↔ (c ∧ x = y) := by
  split_ifs with h <;> simp [h]

theorem trigger_ite_eq_nil {c : Prop} [Decidable c] {y : String} :
    ((if c then [y] else ([] : List String)) = []) ↔ ¬c := by
  split_ifs with h <;> simp [h]

/-- C6: the five review triggers fire exactly on their documented conditions
(in the fixed order low_confidence, unsafe_detector, prompt_errors,
llm_disagreement, secondary_llm_flag); for every successful classification
the stored trigger list is the trigger function of the result's own resolved
confidence, raw signals, prompt errors, agreement score, disagreements and
secondary analysis, and `requires_review` is true exactly when that list is
non-empty; at confidence 0.9, no unsafe signal, no prompt errors, agreement
1.0, empty disagreements and a non-flagging secondary analysis, the list is
empty. -/
theorem requires_review_spec :
    (∀ (conf : ℚ) (signals : DetectorSignals) (errs : List String) (score : ℚ)
       (dis : List String) (sec : SecondaryAnalysis),
      (("low_confidence" ∈ collect_review_triggers conf signals errs score dis sec)
        ↔ conf < 0.8) ∧
      (("unsafe_detector" ∈ collect_review_triggers conf signals errs score dis sec)
        ↔ signals.has_unsafe_pattern = true) ∧
      (("prompt_errors" ∈ collect_review_triggers conf signals errs score dis sec)
        ↔ errs ≠ []) ∧
      (("llm_disagreement" ∈ collect_review_triggers conf signals errs score dis sec)
        ↔ (score < 0.7 ∨ dis ≠ [])) ∧
      (("secondary_llm_flag" ∈ collect_review_triggers conf signals errs score dis sec)
        ↔ sec.needs_review = true) ∧
      ((collect_review_triggers conf signals errs score dis sec = [])
        ↔ (¬ conf < 0.8 ∧ signals.has_unsafe_pattern = false ∧ errs = [] ∧
           ¬ score < 0.7 ∧ dis = [] ∧ sec.needs_review = false))) ∧
    (∀ (promptNames : List String) (flow : List FlowNode) (oracle : String → Py Val)
       (oracleSecondary : Py Val) (doc_id : String) (pages : List (Int × String))
       (signals : DetectorSignals) (ic : Int) (imgs : List Val) (leg : Option ℚ)
       (r : ClassificationResult),
      classify_document promptNames flow oracle oracleSecondary doc_id pages signals
          ic imgs leg = .ok r →
      (r.requires_review = true ↔ r.summary.review.triggers ≠ []) ∧
      r.summary.review.triggers =
        collect_review_triggers r.confidence r.raw_signals r.llm_payload.prompt_errors
          r.dual_llm_agreement r.summary.agreement.disagreements r.secondary_analysis) ∧
    collect_review_triggers 0.9 {} [] 1 [] c6_secondary_ok = [] := by
  refine ⟨?_, ?_, by with_unfolding_all rfl⟩
  · intro conf signals errs score dis sec
    refine ⟨?_, ?_, ?_, ?_, ?_, ?_⟩
    · simp [collect_review_triggers, mem_trigger_ite]
    · simp [collect_review_triggers, mem_trigger_ite]
    · simp [collect_review_triggers, mem_trigger_ite]
    · simp [collect_review_triggers, mem_trigger_ite]
    · simp [collect_review_triggers, mem_trigger_ite]
    · simp only [collect_review_triggers, List.append_eq_nil, trigger_ite_eq_nil]
      constructor
      · rintro ⟨⟨⟨⟨hc, hu⟩, he⟩, hd⟩, hs⟩
        refine ⟨hc, by simpa using hu, by simpa using he, ?_, ?_, by simpa using hs⟩
        · intro hlt; exact hd (by simp [hlt])
        · by_contra hne
          exact hd (by simp [hne])
      · rintro ⟨hc, hu, he, hs0, hd0, hs⟩
        refine ⟨⟨⟨⟨hc, by simp [hu]⟩, by simp [he]⟩, ?_⟩, by simp [hs]⟩
        simp [hs0, hd0]
  · intro pn flow oracle osec doc pages signals ic imgs leg r hok
    simp only [classify_document] at hok
    cases hsa : structure_secondary_analysis (secondary_raw_of osec) with
    | error e => simp only [hsa] at hok; exact absurd hok (by simp)
    | ok sa =>
      simp only [hsa] at hok
      cases hr : resolve_category_conflict
          (build_primary_analysis
            (tree_of_state signals flow (run_flow_engine pn oracle signals imgs flow {}))
            "models/gemini-1.5-pro-latest").category
          (if !pyTruthy sa.error then sa.label else Val.none) with
      | error e => simp only [hr] at hok; exact absurd hok (by simp)
      | ok fc =>
        simp only [hr, Except.ok.injEq] at hok
        subst hok
        constructor
        · simp [assemble_result, build_summary_block]
        · simp [assemble_result, build_summary_block]

/-- C6 witness: the classification clause instantiated on a concrete
successful run. -/
theorem requires_review_spec_witness :
    raised (classify_document [] [] (fun _ => Except.error "down") (.ok (Val.dict []))
      "d6" [] {} 0 [] Option.none) = false ∧
    (classify_document [] [] (fun _ => Except.error "down") (.ok (Val.dict []))
      "d6" [] {} 0 [] Option.none).map
        (fun r => decide (r.requires_review = true ↔ r.summary.review.triggers ≠ []))
      = .ok true := by
  have h0 : raised (classify_document [] [] (fun _ => Except.error "down") (.ok (Val.dict []))
      "d6" [] {} 0 [] Option.none) = false := rfl
  refine ⟨h0, ?_⟩
  cases hc : classify_document [] [] (fun _ => Except.error "down") (.ok (Val.dict []))
      "d6" [] {} 0 [] Option.none with
  | error e => rw [hc] at h0; exact absurd h0 (by simp [raised])
  | ok r =>
    have h := (requires_review_spec.2.1 [] [] (fun _ => Except.error "down") (.ok (Val.dict []))
      "d6" [] {} 0 [] Option.none r hc).1
    simp [Except.map, decide_eq_true h]

/-- C10: an empty secondary reply map (no keys, hence no "error" key) is
still structured into the error state — label `None`, confidence 0,
`needs_review` true, error "secondary_llm_error"; consequently the agreement
score of any primary analysis against it is 0 with disagreements exactly
`["secondary_llm_error"]`, and every successful classification run whose
secondary reply is the empty map has `requires_review = true` and stored
agreement 0. -/
theorem secondary_empty_map_error_state :
    ((structure_secondary_analysis (Val.dict [])).map
       (fun a => (a.label, a.confidence, a.needs_review, a.error))
      = .ok (Val.none, 0, true, Val.str "secondary_llm_error")) ∧
    (∀ (p : PrimaryAnalysis) (sa : SecondaryAnalysis),
      structure_secondary_analysis (Val.dict []) = .ok sa →
      compute_llm_agreement p sa = (0, ["secondary_llm_error"])) ∧
    (∀ (promptNames : List String) (flow : List FlowNode) (oracle : String → Py Val)
       (doc_id : String) (pages : List (Int × String)) (signals : DetectorSignals)
       (ic : Int) (imgs : List Val) (leg : Option ℚ) (r : ClassificationResult),
      classify_document promptNames flow oracle (.ok (Val.dict [])) doc_id pages signals
          ic imgs leg = .ok r →
      r.requires_review = true ∧ r.dual_llm_agreement = 0) := by
  have hconc : structure_secondary_analysis (Val.dict []) = .ok sa_error_empty := rfl
  have hag : ∀ p : PrimaryAnalysis,
      compute_llm_agreement p sa_error_empty = (0, ["secondary_llm_error"]) := by
    intro p
    rw [compute_llm_agreement,
        if_pos (show pyTruthy sa_error_empty.error = true from rfl)]
    with_unfolding_all rfl
  refine ⟨by with_unfolding_all rfl, ?_, ?_⟩
  · intro p sa h
    have hse : sa = sa_error_empty := by
      have h2 := hconc.symm.trans h
      injection h2 with h3
      exact h3.symm
    rw [hse]
    exact hag p
  · intro pn flow oracle doc pages signals ic imgs leg r hok
    simp only [classify_document, secondary_raw_of, hconc] at hok
    cases hr : resolve_category_conflict
        (build_primary_analysis
          (tree_of_state signals flow (run_flow_engine pn oracle signals imgs flow {}))
          "models/gemini-1.5-pro-latest").category
        (if !pyTruthy sa_error_empty.error then sa_error_empty.label else Val.none) with
    | error e => simp only [hr] at hok; exact absurd hok (by simp)
    | ok fc =>
      simp only [hr, Except.ok.injEq] at hok
      subst hok
      constructor
      · simp [assemble_result, build_summary_block, collect_review_triggers, hag]
      · simp [assemble_result, hag]

/-- C10 witness: a concrete run with the empty secondary map has
`requires_review = true` and agreement 0. -/
theorem secondary_empty_map_error_state_witness :
    raised (classify_document [] [] (fun _ => Except.error "down") (.ok (Val.dict []))
      "d10" [] {} 0 [] Option.none) = false ∧
    (classify_document [] [] (fun _ => Except.error "down") (.ok (Val.dict []))
      "d10" [] {} 0 [] Option.none).map
        (fun r => (r.requires_review, r.dual_llm_agreement))
      = .ok (true, 0) := by
  have h0 : raised (classify_document [] [] (fun _ => Except.error "down") (.ok (Val.dict []))
      "d10" [] {} 0 [] Option.none) = false := rfl
  refine ⟨h0, ?_⟩
  cases hc : classify_document [] [] (fun _ => Except.error "down") (.ok (Val.dict []))
      "d10" [] {} 0 [] Option.none with
  | error e => rw [hc] at h0; exact absurd h0 (by simp [raised])
  | ok r =>
    have h := secondary_empty_map_error_state.2.2 [] [] (fun _ => Except.error "down")
      "d10" [] {} 0 [] Option.none r hc
    simp [Except.map, h.1, h.2]

/-- C8 is false as stated: `get_prompt` returns a direct reference into the
cached configuration (no deep copy), so a caller who mutates the returned
prompt dict changes the shared cached definition and the value every later
`get_prompt` caller receives: after writing "HACKED" through the first
returned reference, the second call returns the same reference whose
`content` now reads "HACKED" instead of the configured "x". -/
theorem get_prompt_shares_cached_config :
    (get_prompt cfgC8 "p" {}).1 = .ok (.href 0) ∧
    hgetkey (get_prompt cfgC8 "p" {}).2 (.href 0) "content" = some (.hstr "x") ∧
    (let s2 := hsetitem (get_prompt cfgC8 "p" {}).2 (.href 0) "content" (.hstr "HACKED")
     (get_prompt cfgC8 "p" s2).1 = .ok (.href 0) ∧
     hgetkey (get_prompt cfgC8 "p" s2).2 (.href 0) "content" = some (.hstr "HACKED")) :=
  ⟨rfl, rfl, rfl, rfl⟩

/-- C8 (amended): the configuration is parsed at most once per process —
a call with a filled cache returns the cached reference and an unchanged
state, and the first call parses exactly once and fills the cache;
`get_prompt_flow` hands out an independent deep copy (mutating a node of
the returned flow is visible through that copy but leaves the flow returned
to a later caller equal to the configured one); `get_prompt`, however,
returns a direct reference into the cached configuration, through which a
caller can mutate the shared definition. -/
theorem prompt_library_caching_spec :
    (∀ (config : CVal) (st : LibState) (v : HVal),
      st.cache = some v → load_prompt_library config st = (v, st)) ∧
    (∀ (config : CVal) (st : LibState),
      st.cache = Option.none →
      (load_prompt_library config st).2.loads = st.loads + 1 ∧
      (load_prompt_library config st).2.cache = some (load_prompt_library config st).1) ∧
    ((get_prompt_flow cfgC8f {}).1 = .ok (.href 6) ∧
     hindex (get_prompt_flow cfgC8f {}).2 (.href 6) 0 = some (.href 5) ∧
     (let s2 := hsetitem (get_prompt_flow cfgC8f {}).2 (.href 5) "id" (.hstr "EVIL")
      hgetkey s2 (.href 5) "id" = some (.hstr "EVIL") ∧
      (let r2 := get_prompt_flow cfgC8f s2
       r2.1 = .ok (.href 8) ∧
       hread (r2.2.heap.length + 1) r2.2.heap (.href 8)
         = some (.clist [.cdict [("id", .cstr "n1"), ("prompt", .cstr "p1")]])))) ∧
    (let s2 := hsetitem (get_prompt cfgC8 "p" {}).2 (.href 0) "content" (.hstr "HACKED")
     hgetkey (get_prompt cfgC8 "p" s2).2 (.href 0) "content" = some (.hstr "HACKED")) := by
  refine ⟨?_, ?_, ⟨rfl, rfl, rfl, rfl, rfl⟩, rfl⟩
  · intro config st v h
    rw [load_prompt_library, h]
  · intro config st h
    rw [load_prompt_library, h]
    exact ⟨rfl, rfl⟩

/-- C8 witness: the caching clauses instantiated at the concrete
configuration — the second load returns the cached value without reparsing,
and the first load parses exactly once. -/
theorem prompt_library_caching_spec_witness :
    load_prompt_library cfgC8 (load_prompt_library cfgC8 {}).2
      = ((load_prompt_library cfgC8 {}).1, (load_prompt_library cfgC8 {}).2) ∧
    ((load_prompt_library cfgC8 {}).2.loads = ({} : LibState).loads + 1 ∧
     (load_prompt_library cfgC8 {}).2.cache = some (load_prompt_library cfgC8 {}).1) :=
  ⟨prompt_library_caching_spec.1 cfgC8 (load_prompt_library cfgC8 {}).2
     (load_prompt_library cfgC8 {}).1 rfl,
   prompt_library_caching_spec.2.1 cfgC8 {} rfl⟩

end DocClass

